import Mathlib

/-!
CryptoLib: configuration, CRC tables and the MariaDB security-association store.

A shallow embedding of `src/src_main/crypto_config.c` and
`src/src_mysql/sadb_routine_mariadb.template.c`, followed by theorems about it.

Conventions of the embedding.

* A C array or a block of memory reached through a pointer is a function
  `Nat → α` from the index to the element; `store a i v` is `a[i] = v`.
  A byte read through `unsigned char *` is the cell value modulo 256.
* A nullable pointer to a single object is an `Option`; the linked list of
  managed parameters is a `List` (`[]` is `NULL`, `r :: rest` is a node whose
  `next` points to `rest`).
* A C string is the `String` of its characters before the terminating NUL.
* Unsigned machine integers are `Nat` with an explicit `% 2 ^ w` wherever the
  source can wrap.
* Status codes, key states and numeric macros come from headers that are not
  among the sources: status codes and key states stay symbolic, numeric
  macros are the fields of `Macros`.
* Printing (`printf`, `fprintf`) is not modelled.
-/

namespace CryptoLib

/-! ## Status codes (`crypto_error.h`) -/

/-- Status codes named by the sources. Their numeric values are declared in
`crypto_error.h`; they are kept symbolic, different macros being different
codes. `other` stands for any further code of that header. -/
inductive Status
  | CRYPTO_LIB_SUCCESS
  | CRYPTO_LIB_ERR_NULL_BUFFER
  | CRYPTO_CONFIGURATION_NOT_COMPLETE
  | CRYPTO_MANAGED_PARAM_CONFIGURATION_NOT_COMPLETE
  | CRYPTO_MARIADB_CONFIGURATION_NOT_COMPLETE
  | SADB_INVALID_SADB_TYPE
  | SADB_MARIADB_CONNECTION_FAILED
  | SADB_QUERY_FAILED
  | SADB_QUERY_EMPTY_RESULTS
  | SADB_NULL_SA_USED
  | other (code : Int)
  deriving DecidableEq, Repr

/-! ## Memory cells -/

/-- The assignment `a[i] = v` on an array seen as a function of the index. -/
def store {α : Type} (a : Nat → α) (i : Nat) (v : α) : Nat → α :=
  fun j => if j = i then v else a j

/-! ## Hex marshalling (`sadb_routine_mariadb.template.c`, lines 426-464) -/

/-- The C predicate `isspace` in the "C" locale: space, `\t`, `\n`, `\v`, `\f`, `\r`. -/
def isspace (c : Char) : Bool :=
  c = ' ' || c = '\t' || c = '\n' || c = Char.ofNat 11 || c = Char.ofNat 12 || c = '\r'

/-- Value of a hexadecimal digit, `none` for any other character. -/
def xdigit_value (c : Char) : Option Nat :=
  if '0' ≤ c ∧ c ≤ '9' then some (c.toNat - '0'.toNat)
  else if 'a' ≤ c ∧ c ≤ 'f' then some (c.toNat - 'a'.toNat + 10)
  else if 'A' ≤ c ∧ c ≤ 'F' then some (c.toNat - 'A'.toNat + 10)
  else none

/-- The call `sscanf(data, " %02x%n", &read_byte, &offset)` as ISO C describes
it: white space is skipped, then the longest input item of at most two
characters that is, or is a prefix of, an optionally signed hexadecimal integer
(with optional `0x`) is taken. The result is `some (read_byte, offset)` when
`sscanf` returns 1 and `none` when it returns 0 or `EOF`. A negative item is
converted to `unsigned int` (modulo `2 ^ 32`); an item that is only a sign, or
only `0x`, is a matching failure. -/
def sscanf_02x (data : List Char) : Option (Nat × Nat) :=
  let ws := (data.takeWhile isspace).length
  match data.dropWhile isspace with
  | [] => none
  | c1 :: rest =>
    if c1 = '+' ∨ c1 = '-' then
      match rest with
      | [] => none
      | c2 :: _ =>
        match xdigit_value c2 with
        | none => none
        | some d => some (if c1 = '-' then (2 ^ 32 - d) % 2 ^ 32 else d, ws + 2)
    else
      match xdigit_value c1 with
      | none => none
      | some d1 =>
        match rest with
        | [] => some (d1, ws + 1)
        | c2 :: _ =>
          if c1 = '0' ∧ (c2 = 'x' ∨ c2 = 'X') then none
          else
            match xdigit_value c2 with
            | some d2 => some (16 * d1 + d2, ws + 2)
            | none => some (d1, ws + 1)

/-- The `while` loop of `convert_hexstring_to_byte_array`:
`dest_buffer[data_len++] = read_byte; data += offset;` for as long as `sscanf`
returns 1. `data_len` is a `uint8_t`, so the increment is modulo 256, and the
stored byte is `read_byte` narrowed to `uint8_t`. Every round consumes at least
one character, so `fuel` larger than the length of `data` is never used up
(`hexstring_loop_fuel`). -/
def hexstring_loop : Nat → List Char → (Nat → Nat) → Nat → (Nat → Nat) × Nat
  | 0, _, dest_buffer, data_len => (dest_buffer, data_len)
  | fuel + 1, data, dest_buffer, data_len =>
    match sscanf_02x data with
    | none => (dest_buffer, data_len)
    | some (read_byte, offset) =>
      hexstring_loop fuel (data.drop offset)
        (store dest_buffer data_len (read_byte % 256)) ((data_len + 1) % 256)

/-- The function `convert_hexstring_to_byte_array(source_str, dest_buffer)`:
the destination memory after the call and the returned `data_len`. Writes past
the end of the object `dest_buffer` points to are recorded in the same index
space. -/
def convert_hexstring_to_byte_array (source_str : String) (dest_buffer : Nat → Nat) :
    (Nat → Nat) × Nat :=
  hexstring_loop (source_str.length + 1) source_str.data dest_buffer 0

/-- The conditional `nib < 0xA ? '0' + nib : 'A' + nib - 0xA`. -/
def nibble_char (nib : Nat) : Char :=
  if nib < 0xA then Char.ofNat ('0'.toNat + nib) else Char.ofNat ('A'.toNat + nib - 0xA)

/-- The `for` loop of `convert_byte_array_to_hexstring`, from index `i` for
`count` more bytes: two characters per byte, high nibble first. -/
def byte_array_loop (bytes : Nat → Nat) : Nat → Nat → List Char
  | _, 0 => []
  | i, count + 1 =>
    nibble_char (((bytes i % 256) >>> 4) &&& 0x0F) :: nibble_char ((bytes i % 256) &&& 0x0F)
      :: byte_array_loop bytes (i + 1) count

/-- The function `convert_byte_array_to_hexstring(src_buffer, buffer_length)`.
`src_buffer` is `none` for a null pointer; the result is `none` when the
function returns `NULL`. The `malloc` of the result is taken to succeed. -/
def convert_byte_array_to_hexstring (src_buffer : Option (Nat → Nat)) (buffer_length : Nat) :
    Option String :=
  if buffer_length = 0 then some ""
  else
    match src_buffer with
    | none => none
    | some bytes => some (String.mk (byte_array_loop bytes 0 buffer_length))

/-! ## CRC tables (`crypto_config.c`, lines 822-863) -/

/-- One round of the inner loop: `crc = (crc >> 1) ^ (-(int)(crc & 1) & poly)`
on `uint32_t`; the negated bit converted back to `uint32_t` is
`(2 ^ 32 - bit) % 2 ^ 32`. -/
def crc32_round (poly crc : Nat) : Nat :=
  (crc >>> 1) ^^^ (((2 ^ 32 - (crc &&& 1)) % 2 ^ 32) &&& poly)

/-- The inner loop `for (j = 0; j < 8; j++)` run for `rounds` rounds. -/
def crc32_rounds (poly : Nat) : Nat → Nat → Nat
  | 0, crc => crc
  | rounds + 1, crc => crc32_rounds poly rounds (crc32_round poly crc)

/-- The first loop of `Crypto_Calc_CRC_Init_Table`, from index `i` for `count`
more entries: `crc = i; ...; crc32Table[i] = crc;`. -/
def crc32_table_loop (poly : Nat) : Nat → Nat → (Nat → Nat) → (Nat → Nat)
  | 0, _, crc32Table => crc32Table
  | count + 1, i, crc32Table =>
    crc32_table_loop poly count (i + 1) (store crc32Table i (crc32_rounds poly 8 i))

/-- The body of the second loop (code provided by ESA): `val` for index `i`. -/
def crc16_val (i : Nat) : Nat :=
  let val := 0
  let val := if i &&& 1 ≠ 0 then val ^^^ 0x1021 else val
  let val := if i &&& 2 ≠ 0 then val ^^^ 0x2042 else val
  let val := if i &&& 4 ≠ 0 then val ^^^ 0x4084 else val
  let val := if i &&& 8 ≠ 0 then val ^^^ 0x8108 else val
  let val := if i &&& 16 ≠ 0 then val ^^^ 0x1231 else val
  let val := if i &&& 32 ≠ 0 then val ^^^ 0x2462 else val
  let val := if i &&& 64 ≠ 0 then val ^^^ 0x48C4 else val
  let val := if i &&& 128 ≠ 0 then val ^^^ 0x9188 else val
  val

/-- The second loop of `Crypto_Calc_CRC_Init_Table`, from index `i` for `count`
more entries: `crc16Table[i] = val;`. -/
def crc16_table_loop : Nat → Nat → (Nat → Nat) → (Nat → Nat)
  | 0, _, crc16Table => crc16Table
  | count + 1, i, crc16Table => crc16_table_loop count (i + 1) (store crc16Table i (crc16_val i))

/-- The two tables `crc32Table` and `crc16Table`. -/
structure CrcTables where
  crc32Table : Nat → Nat
  crc16Table : Nat → Nat

/-- The function `Crypto_Calc_CRC_Init_Table`: `i` runs over `0 ..= 0xFF` in the
first loop and over `0 .. 256` in the second. -/
def Crypto_Calc_CRC_Init_Table (t : CrcTables) : CrcTables :=
  let poly := 0xEDB88320
  { crc32Table := crc32_table_loop poly (0xFF + 1) 0 t.crc32Table
    crc16Table := crc16_table_loop 256 0 t.crc16Table }

/-- The table entry the CRC-16-CCITT description gives for index `i`: start
from `i << 8` and do eight steps of "shift left one bit within 16 bits, and XOR
with 0x1021 when the bit shifted out was 1". -/
def crc16_ccitt_step (v : Nat) : Nat :=
  if v &&& 0x8000 ≠ 0 then ((v <<< 1) % 2 ^ 16) ^^^ 0x1021 else (v <<< 1) % 2 ^ 16

/-- Eight steps of `crc16_ccitt_step` from `i << 8`. -/
def crc16_ccitt_entry (i : Nat) : Nat :=
  crc16_ccitt_step^[8] (i <<< 8)

/-- The table entry the reflected CRC-32 description gives for index `i`: eight
steps of "shift right one bit, and XOR with 0xEDB88320 when the bit shifted out
was 1". -/
def crc32_reflected_step (v : Nat) : Nat :=
  if v &&& 1 ≠ 0 then (v >>> 1) ^^^ 0xEDB88320 else v >>> 1

/-- Eight steps of `crc32_reflected_step` from `i`. -/
def crc32_reflected_entry (i : Nat) : Nat :=
  crc32_reflected_step^[8] i

/-- The byte-wise table-driven reflected update, as the test vector describes
it: `crc = table[(crc xor byte) and 0xFF] xor (crc >> 8)`. -/
def crc32_update (table : Nat → Nat) (crc byte : Nat) : Nat :=
  table ((crc ^^^ byte) &&& 0xFF) ^^^ (crc >>> 8)

/-- CRC-32 of a byte sequence with a given table: initial value 0xFFFFFFFF,
`crc32_update` per byte, final XOR with 0xFFFFFFFF. -/
def crc32_of (table : Nat → Nat) (bytes : List Nat) : Nat :=
  (bytes.foldl (crc32_update table) 0xFFFFFFFF) ^^^ 0xFFFFFFFF


/-- What the decoding loop does on the encoder's output, round by round: byte
`i`, `i + 1`, ... of `bytes` is stored at `data_len`, `data_len + 1`, ... with
the index counted modulo 256. Used to state and prove the round trip. -/
def write_bytes (bytes : Nat → Nat) : Nat → Nat → (Nat → Nat) → Nat → (Nat → Nat) × Nat
  | _, 0, dest, len => (dest, len)
  | i, count + 1, dest, len =>
    write_bytes bytes (i + 1) count (store dest len (bytes i % 256)) ((len + 1) % 256)

/-! ## Configuration data (`crypto_config.c`) -/

/-- Numeric macros and enumeration constants the sources use and other headers
declare; every function that needs one takes this record. -/
structure Macros where
  SADB_TYPE_INMEMORY : Nat
  SADB_TYPE_MARIADB : Nat
  SA_OPERATIONAL : Nat
  SCID : Nat
  IV_SIZE : Nat
  TM_FRAME_DATA_SIZE : Nat
  MAC_SIZE : Nat
  OCF_SIZE : Nat
  LOG_SIZE : Nat
  STARTUP : Nat

/-- The object `crypto_config` points to: the nine fields `Crypto_Config_CryptoLib` assigns. -/
structure CryptoConfig_t where
  sadb_type : Nat
  crypto_create_fecf : Nat
  process_sdls_pdus : Nat
  has_pus_hdr : Nat
  ignore_sa_state : Nat
  ignore_anti_replay : Nat
  unique_sa_per_mapid : Nat
  crypto_check_fecf : Nat
  vcid_bitmask : Nat
  deriving DecidableEq, Repr

/-- The object `sadb_mariadb_config` points to. A `char *` member is `none`
when it is a null pointer. -/
structure SadbMariaDBConfig_t where
  mysql_username : Option String
  mysql_password : Option String
  mysql_hostname : Option String
  mysql_database : Option String
  mysql_port : Nat
  deriving DecidableEq, Repr

/-- One node of the managed-parameter list without its `next` pointer, which
the enclosing `List` renders. A member holds the argument assigned to it. -/
structure GvcidManagedParameters_t where
  tfvn : Nat
  scid : Nat
  vcid : Nat
  has_fecf : Nat
  has_segmentation_hdr : Nat
  deriving DecidableEq, Repr

/-- Key states, as the key ring's comments and the data model name them. -/
inductive KeyState
  | KEY_PREACTIVE
  | KEY_ACTIVE
  | KEY_DEACTIVATED
  | KEY_DESTROYED
  | KEY_CORRUPTED
  deriving DecidableEq, Repr

/-- One slot of `ek_ring`. -/
structure crypto_key_t where
  value : Nat → Nat
  key_state : KeyState

/-- The member `tm_frame.tm_header`. -/
structure TM_FramePrimaryHeader_t where
  tfvn : Nat
  scid : Nat
  vcid : Nat
  ocff : Nat
  mcfc : Nat
  vcfc : Nat
  tfsh : Nat
  sf : Nat
  pof : Nat
  slid : Nat
  fhp : Nat
  deriving DecidableEq, Repr

/-- The member `tm_frame.tm_sec_header`. -/
structure TM_FrameSecurityHeader_t where
  spi : Nat
  iv : Nat → Nat

/-- The member `tm_frame.tm_sec_trailer`. -/
structure TM_FrameSecurityTrailer_t where
  mac : Nat → Nat
  ocf : Nat → Nat
  fecf : Nat

/-- The global `tm_frame`. -/
structure TM_t where
  tm_header : TM_FramePrimaryHeader_t
  tm_sec_header : TM_FrameSecurityHeader_t
  tm_pdu : Nat → Nat
  tm_sec_trailer : TM_FrameSecurityTrailer_t

/-- The global `clcw`. -/
structure TM_FrameCLCW_t where
  cwt : Nat
  cvn : Nat
  sf : Nat
  cie : Nat
  vci : Nat
  spare0 : Nat
  nrfa : Nat
  nbl : Nat
  lo : Nat
  wait : Nat
  rt : Nat
  fbc : Nat
  spare1 : Nat
  rv : Nat
  deriving DecidableEq, Repr

/-- The global `report` (frame security report). -/
structure SDLS_FSR_t where
  cwt : Nat
  vnum : Nat
  af : Nat
  bsnf : Nat
  bmacf : Nat
  ispif : Nat
  lspiu : Nat
  snval : Nat
  deriving DecidableEq, Repr

/-- The global `log_summary`. `rs` is an `Int` so that the two decrements from
`LOG_SIZE` are exact; the wrap of the member's unsigned type, which only a
`LOG_SIZE` below 2 would trigger, is not modelled. -/
structure SDLS_MC_LOG_RPLY_t where
  num_se : Nat
  rs : Int
  deriving DecidableEq, Repr

/-- One element of `mc_log.blk`. -/
structure SDLS_MC_DUMP_RPLY_t where
  emt : Nat
  emv : Nat → Nat
  em_len : Nat

/-- Which table of function pointers `sadb_routine` points to. -/
inductive SadbRoutine
  | inmemory
  | mariadb
  deriving DecidableEq, Repr

/-- The MySQL connection handle `con` of the MariaDB backend. -/
inductive MysqlHandle
  | unset
  | initialised
  | connected
  | closed
  deriving DecidableEq, Repr

/-- The globals the two source files read and write. `current_managed_parameters`
is the position, in the managed-parameter list, of the node it points to. -/
structure LibState where
  crypto_config : Option CryptoConfig_t
  sadb_mariadb_config : Option SadbMariaDBConfig_t
  gvcid_managed_parameters : List GvcidManagedParameters_t
  current_managed_parameters : Option Nat
  sadb_routine : Option SadbRoutine
  con : MysqlHandle
  ek_ring : Nat → crypto_key_t
  tm_frame : TM_t
  clcw : TM_FrameCLCW_t
  report : SDLS_FSR_t
  log_summary : SDLS_MC_LOG_RPLY_t
  mc_log_blk : Nat → SDLS_MC_DUMP_RPLY_t
  log_count : Nat
  crc : CrcTables

/-! ## The MySQL client library and the other collaborators -/

/-- A result set as `mysql_store_result` hands it over: the column names in
select-list order (`mysql_num_fields` is their number) and the rows, a `NULL`
column value being `none`. -/
structure MysqlResult where
  fields : List String
  rows : List (List (Option String))
  deriving DecidableEq, Repr

/-- What the server does with one statement: `mysql_real_query` (or
`mysql_query`) fails; or it succeeds and `mysql_store_result` returns `NULL`;
or it succeeds and there is a result set. -/
inductive QueryOutcome
  | query_error
  | no_result_set
  | result_set (r : MysqlResult)
  deriving DecidableEq, Repr

/-- The collaborators outside the two source files: whether
`mysql_real_connect` succeeds for a given configuration, what the server
answers to a statement, and the statuses the in-memory backend's `sadb_init`
and `sadb_config` return. -/
structure Env where
  mysql_real_connect : SadbMariaDBConfig_t → Bool
  mysql_exec : String → QueryOutcome
  inmemory_sadb_init : Status
  inmemory_sadb_config : Status

/-! ## The MariaDB backend: initialisation (`sadb_routine_mariadb.template.c`, lines 94-120, 466-471) -/

/-- The function `finish_with_error(con, err)`: closes the connection and returns `err`. -/
def finish_with_error (_con : MysqlHandle) (err : Status) : Status × MysqlHandle :=
  (err, MysqlHandle.closed)

/-- The MariaDB `sadb_config`. -/
def sadb_config : Status := Status.CRYPTO_LIB_SUCCESS

/-- The MariaDB `sadb_init`. The result is `none` when `sadb_mariadb_config` is
null, which the function dereferences unchecked. -/
def sadb_init (env : Env) (s : LibState) : Option (Status × LibState) :=
  match s.sadb_mariadb_config with
  | none => none
  | some cfg =>
    let status := Status.CRYPTO_LIB_SUCCESS
    let con := MysqlHandle.initialised
    if env.mysql_real_connect cfg then
      some (status, { s with con := MysqlHandle.connected })
    else
      let (status, con) := finish_with_error con Status.SADB_MARIADB_CONNECTION_FAILED
      some (status, { s with con := con })

/-- The MariaDB `sadb_close`. -/
def sadb_close (s : LibState) : Status × LibState :=
  (Status.CRYPTO_LIB_SUCCESS, { s with con := MysqlHandle.closed })

/-- The call `sadb_routine->sadb_init()` through the selected table. -/
def SadbRoutine.sadb_init (r : SadbRoutine) (env : Env) (s : LibState) :
    Option (Status × LibState) :=
  match r with
  | SadbRoutine.inmemory => some (env.inmemory_sadb_init, s)
  | SadbRoutine.mariadb => CryptoLib.sadb_init env s

/-- The call `sadb_routine->sadb_config()` through the selected table. -/
def SadbRoutine.sadb_config (r : SadbRoutine) (env : Env) : Status :=
  match r with
  | SadbRoutine.inmemory => env.inmemory_sadb_config
  | SadbRoutine.mariadb => CryptoLib.sadb_config

/-! ## Local initialisation (`crypto_config.c`, lines 308-816) -/

/-- A loop `for (x = 0; x < n; x++) a[x] = 0x00;`, from index `x` for `count` more cells. -/
def zero_loop : Nat → Nat → (Nat → Nat) → (Nat → Nat)
  | 0, _, a => a
  | count + 1, x, a => zero_loop count (x + 1) (store a x 0x00)

/-- The function `Crypto_Local_Init`: TM frame, CLCW and frame security report. -/
def Crypto_Local_Init (m : Macros) (s : LibState) : LibState :=
  { s with
    tm_frame :=
      { tm_header :=
          { tfvn := 0, scid := m.SCID &&& 0x3FF, vcid := 0, ocff := 1, mcfc := 1, vcfc := 1,
            tfsh := 0, sf := 0, pof := 0, slid := 3, fhp := 0 }
        tm_sec_header :=
          { spi := 0x0000, iv := zero_loop m.IV_SIZE 0 s.tm_frame.tm_sec_header.iv }
        tm_pdu := zero_loop m.TM_FRAME_DATA_SIZE 0 s.tm_frame.tm_pdu
        tm_sec_trailer :=
          { mac := zero_loop m.MAC_SIZE 0 s.tm_frame.tm_sec_trailer.mac
            ocf := zero_loop m.OCF_SIZE 0 s.tm_frame.tm_sec_trailer.ocf
            fecf := 0xFECF } }
    clcw :=
      { cwt := 0, cvn := 0, sf := 0, cie := 1, vci := 0, spare0 := 0, nrfa := 0, nbl := 0,
        lo := 0, wait := 0, rt := 0, fbc := 0, spare1 := 0, rv := 0 }
    report :=
      { cwt := 1, vnum := 4, af := 0, bsnf := 0, bmacf := 0, ispif := 0, lspiu := 0, snval := 0 } }

/-- One of the two identical blocks of `Crypto_Local_Config` that add a
start-up message: `log_summary.rs--`, the block `mc_log.blk[log_count]` gets
`emt = STARTUP`, `emv[0..3] = 4E 41 53 41`, `em_len = 4`, and `log_count++`. -/
def log_startup_message (m : Macros) (s : LibState) : LibState :=
  let blk := s.mc_log_blk s.log_count
  let blk := { blk with emt := m.STARTUP }
  let blk := { blk with emv := store blk.emv 0 0x4E }
  let blk := { blk with emv := store blk.emv 1 0x41 }
  let blk := { blk with emv := store blk.emv 2 0x53 }
  let blk := { blk with emv := store blk.emv 3 0x41 }
  let blk := { blk with em_len := 4 }
  { s with
    log_summary := { s.log_summary with rs := s.log_summary.rs - 1 }
    mc_log_blk := store s.mc_log_blk s.log_count blk
    log_count := s.log_count + 1 }

/-- An assignment to the key ring in `Crypto_Local_Config`: `value k bytes` is
the run `ek_ring[k].value[0] = bytes[0]; ...; ek_ring[k].value[31] = bytes[31];`
and `key_state k st` is `ek_ring[k].key_state = st;`. -/
inductive KeyWrite
  | value (k : Nat) (bytes : List Nat)
  | key_state (k : Nat) (st : KeyState)

/-- The assignments `value[j] = b; value[j + 1] = ...` of one run. -/
def write_key_value : List Nat → Nat → (Nat → Nat) → (Nat → Nat)
  | [], _, value => value
  | b :: bytes, j, value => write_key_value bytes (j + 1) (store value j b)

/-- The effect of one key-ring assignment. -/
def KeyWrite.apply (ek_ring : Nat → crypto_key_t) : KeyWrite → (Nat → crypto_key_t)
  | KeyWrite.value k bytes =>
    store ek_ring k { ek_ring k with value := write_key_value bytes 0 (ek_ring k).value }
  | KeyWrite.key_state k st => store ek_ring k { ek_ring k with key_state := st }

/-- The key-ring assignments of `Crypto_Local_Config` (lines 332-746), in source order. -/
def key_ring_writes : List KeyWrite :=
[
  KeyWrite.value 0
    [0x00, 0x01, 0x02, 0x03, 0x04, 0x05, 0x06, 0x07, 0x08, 0x09, 0x0A, 0x0B, 0x0C, 0x0D, 0x0E, 0x0F,
     0x00, 0x01, 0x02, 0x03, 0x04, 0x05, 0x06, 0x07, 0x08, 0x09, 0x0A, 0x0B, 0x0C, 0x0D, 0x0E, 0x0F],
  KeyWrite.key_state 0 KeyState.KEY_ACTIVE,
  KeyWrite.value 1
    [0x10, 0x11, 0x12, 0x13, 0x14, 0x15, 0x16, 0x17, 0x18, 0x19, 0x1A, 0x1B, 0x1C, 0x1D, 0x1E, 0x1F,
     0x10, 0x11, 0x12, 0x13, 0x14, 0x15, 0x16, 0x17, 0x18, 0x19, 0x1A, 0x1B, 0x1C, 0x1D, 0x1E, 0x1F],
  KeyWrite.key_state 1 KeyState.KEY_ACTIVE,
  KeyWrite.value 2
    [0x20, 0x21, 0x22, 0x23, 0x24, 0x25, 0x26, 0x27, 0x28, 0x29, 0x2A, 0x2B, 0x2C, 0x2D, 0x2E, 0x2F,
     0x20, 0x21, 0x22, 0x23, 0x24, 0x25, 0x26, 0x27, 0x28, 0x29, 0x2A, 0x2B, 0x2C, 0x2D, 0x2E, 0x2F],
  KeyWrite.key_state 2 KeyState.KEY_ACTIVE,
  KeyWrite.value 128
    [0x01, 0x23, 0x45, 0x67, 0x89, 0xAB, 0xCD, 0xEF, 0x01, 0x23, 0x45, 0x67, 0x89, 0xAB, 0xCD, 0xEF,
     0x01, 0x23, 0x45, 0x67, 0x89, 0xAB, 0xCD, 0xEF, 0x01, 0x23, 0x45, 0x67, 0x89, 0xAB, 0xCD, 0xEF],
  KeyWrite.key_state 128 KeyState.KEY_ACTIVE,
  KeyWrite.value 129
    [0xAB, 0xCD, 0xEF, 0x01, 0x23, 0x45, 0x67, 0x89, 0xAB, 0xCD, 0xEF, 0x01, 0x23, 0x45, 0x67, 0x89,
     0xAB, 0xCD, 0xEF, 0x01, 0x23, 0x45, 0x67, 0x89, 0xAB, 0xCD, 0xEF, 0x01, 0x23, 0x45, 0x67, 0x89],
  KeyWrite.key_state 129 KeyState.KEY_ACTIVE,
  KeyWrite.value 130
    [0xFE, 0xDC, 0xBA, 0x98, 0x76, 0x54, 0x32, 0x10, 0xFE, 0xDC, 0xBA, 0x98, 0x76, 0x54, 0x32, 0x10,
     0xFE, 0xDC, 0xBA, 0x98, 0x76, 0x54, 0x32, 0x10, 0xFE, 0xDC, 0xBA, 0x98, 0x76, 0x54, 0x32, 0x10],
  KeyWrite.key_state 130 KeyState.KEY_ACTIVE,
  KeyWrite.value 131
    [0x98, 0x76, 0x54, 0x32, 0x10, 0xFE, 0xDC, 0xBA, 0x98, 0x76, 0x54, 0x32, 0x10, 0xFE, 0xDC, 0xBA,
     0x98, 0x76, 0x54, 0x32, 0x10, 0xFE, 0xDC, 0xBA, 0x98, 0x76, 0x54, 0x32, 0x10, 0xFE, 0xDC, 0xBA],
  KeyWrite.key_state 131 KeyState.KEY_ACTIVE,
  KeyWrite.value 132
    [0x01, 0x23, 0x45, 0x67, 0x89, 0xAB, 0xCD, 0xEF, 0xAB, 0xCD, 0xEF, 0x01, 0x23, 0x45, 0x67, 0x89,
     0x01, 0x23, 0x45, 0x67, 0x89, 0xAB, 0xCD, 0xEF, 0xAB, 0xCD, 0xEF, 0x01, 0x23, 0x45, 0x67, 0x89],
  KeyWrite.key_state 132 KeyState.KEY_PREACTIVE,
  KeyWrite.value 133
    [0xAB, 0xCD, 0xEF, 0x01, 0x23, 0x45, 0x67, 0x89, 0x01, 0x23, 0x45, 0x67, 0x89, 0xAB, 0xCD, 0xEF,
     0xAB, 0xCD, 0xEF, 0x01, 0x23, 0x45, 0x67, 0x89, 0x01, 0x23, 0x45, 0x67, 0x89, 0xAB, 0xCD, 0xEF],
  KeyWrite.key_state 133 KeyState.KEY_ACTIVE,
  KeyWrite.value 134
    [0xAB, 0xCD, 0xEF, 0x01, 0x23, 0x45, 0x67, 0x89, 0xFE, 0xDC, 0xBA, 0x98, 0x76, 0x54, 0x32, 0x10,
     0xAB, 0xCD, 0xEF, 0x01, 0x23, 0x45, 0x67, 0x89, 0xFE, 0xDC, 0xBA, 0x98, 0x76, 0x54, 0x32, 0x10],
  KeyWrite.key_state 134 KeyState.KEY_DEACTIVATED,
  KeyWrite.value 135
    [0x00, 0x00, 0x00, 0x00, 0x00, 0x00, 0x00, 0x00, 0x00, 0x00, 0x00, 0x00, 0x00, 0x00, 0x00, 0x00,
     0x00, 0x00, 0x00, 0x00, 0x00, 0x00, 0x00, 0x00, 0x00, 0x00, 0x00, 0x00, 0x00, 0x00, 0x00, 0x00],
  KeyWrite.key_state 135 KeyState.KEY_DEACTIVATED,
  KeyWrite.value 136
    [0xff, 0x9f, 0x92, 0x84, 0xcf, 0x59, 0x9e, 0xac, 0x3b, 0x11, 0x99, 0x05, 0xa7, 0xd1, 0x88, 0x51,
     0xe7, 0xe3, 0x74, 0xcf, 0x63, 0xae, 0xa0, 0x43, 0x58, 0x58, 0x6b, 0x0f, 0x75, 0x76, 0x70, 0xf9],
  KeyWrite.key_state 135 KeyState.KEY_DEACTIVATED
]

/-- The function `Crypto_Local_Config`: TM security header SPI, the log with
its two start-up messages, and the key ring. -/
def Crypto_Local_Config (m : Macros) (s : LibState) : LibState :=
  let s := { s with tm_frame := { s.tm_frame with
    tm_sec_header := { s.tm_frame.tm_sec_header with spi := 1 } } }
  let s := { s with log_summary := { s.log_summary with num_se := 2 } }
  let s := { s with log_summary := { s.log_summary with rs := (m.LOG_SIZE : Int) } }
  let s := log_startup_message m s
  let s := log_startup_message m s
  { s with ek_ring := key_ring_writes.foldl KeyWrite.apply s.ek_ring }

/-! ## Initialisation, shutdown and configuration (`crypto_config.c`, lines 32-302) -/

/-- The part of `Crypto_Init` after the backend is chosen (lines 108-136):
`status = sadb_routine->sadb_init(); status = sadb_routine->sadb_config();`,
then `Crypto_Local_Init`, `Crypto_Local_Config`, `Crypto_Calc_CRC_Init_Table`,
and `return status`. The libgcrypt calls in between touch no global of these
files, and their results only choose what is printed. -/
def Crypto_Init_backend (m : Macros) (env : Env) (routine : SadbRoutine) (s : LibState) :
    Option (Status × LibState) :=
  let s := { s with sadb_routine := some routine }
  match routine.sadb_init env s with
  | none => none
  | some (_status, s) =>
    let status := routine.sadb_config env
    let s := Crypto_Local_Init m s
    let s := Crypto_Local_Config m s
    let s := { s with crc := Crypto_Calc_CRC_Init_Table s.crc }
    some (status, s)

/-- The function `Crypto_Init`. The result is `none` when the call does not
return because a null pointer is dereferenced. -/
def Crypto_Init (m : Macros) (env : Env) (s : LibState) : Option (Status × LibState) :=
  match s.crypto_config with
  | none => some (Status.CRYPTO_CONFIGURATION_NOT_COMPLETE, s)
  | some crypto_config =>
    match s.gvcid_managed_parameters with
    | [] => some (Status.CRYPTO_MANAGED_PARAM_CONFIGURATION_NOT_COMPLETE, s)
    | _ :: _ =>
      if crypto_config.sadb_type = m.SADB_TYPE_INMEMORY then
        Crypto_Init_backend m env SadbRoutine.inmemory s
      else if crypto_config.sadb_type = m.SADB_TYPE_MARIADB then
        match s.sadb_mariadb_config with
        | none => some (Status.CRYPTO_MARIADB_CONFIGURATION_NOT_COMPLETE, s)
        | some _ => Crypto_Init_backend m env SadbRoutine.mariadb s
      else
        some (Status.SADB_INVALID_SADB_TYPE, s)

/-- The function `Crypto_Init_With_Configs`. -/
def Crypto_Init_With_Configs (m : Macros) (env : Env)
    (crypto_config_p : Option CryptoConfig_t)
    (gvcid_managed_parameters_p : List GvcidManagedParameters_t)
    (sadb_mariadb_config_p : Option SadbMariaDBConfig_t) (s : LibState) :
    Option (Status × LibState) :=
  Crypto_Init m env
    { s with
      crypto_config := crypto_config_p
      gvcid_managed_parameters := gvcid_managed_parameters_p
      sadb_mariadb_config := sadb_mariadb_config_p }

/-- The function `Crypto_Shutdown`. `free` and `Crypto_Free_Managed_Parameters`
release heap blocks and leave the globals of `LibState` alone; the function
then sets each pointer to `NULL`. -/
def Crypto_Shutdown (s : LibState) : Status × LibState :=
  let status := Status.CRYPTO_LIB_SUCCESS
  let s := match s.crypto_config with
    | some _ => { s with crypto_config := none }
    | none => s
  let s := match s.sadb_mariadb_config with
    | some _ => { s with sadb_mariadb_config := none }
    | none => s
  let s := { s with current_managed_parameters := none }
  let s := match s.gvcid_managed_parameters with
    | _ :: _ => { s with gvcid_managed_parameters := [] }
    | [] => s
  (status, s)

/-- The function `Crypto_Config_CryptoLib`. `calloc_ok` tells whether `calloc`
returns a block; its result is not checked, so a failed `calloc` ends in a null
dereference (`none`). -/
def Crypto_Config_CryptoLib (calloc_ok : Bool) (sadb_type crypto_create_fecf process_sdls_pdus
    has_pus_hdr ignore_sa_state ignore_anti_replay unique_sa_per_mapid crypto_check_fecf
    vcid_bitmask : Nat) (s : LibState) : Option (Status × LibState) :=
  let status := Status.CRYPTO_LIB_SUCCESS
  if calloc_ok then
    let config : CryptoConfig_t :=
      { sadb_type := sadb_type
        crypto_create_fecf := crypto_create_fecf
        process_sdls_pdus := process_sdls_pdus
        has_pus_hdr := has_pus_hdr
        ignore_sa_state := ignore_sa_state
        ignore_anti_replay := ignore_anti_replay
        unique_sa_per_mapid := unique_sa_per_mapid
        crypto_check_fecf := crypto_check_fecf
        vcid_bitmask := vcid_bitmask }
    some (status, { s with crypto_config := some config })
  else none

/-- The function `Crypto_Config_MariaDB`. The global is assigned the result of
`calloc` before it is tested, so a failed `calloc` leaves it null. -/
def Crypto_Config_MariaDB (calloc_ok : Bool) (mysql_username mysql_password mysql_hostname
    mysql_database : Option String) (mysql_port : Nat) (s : LibState) : Status × LibState :=
  let status := Status.CRYPTO_LIB_SUCCESS
  if calloc_ok then
    let config : SadbMariaDBConfig_t :=
      { mysql_username := mysql_username
        mysql_password := mysql_password
        mysql_hostname := mysql_hostname
        mysql_database := mysql_database
        mysql_port := mysql_port }
    (status, { s with sadb_mariadb_config := some config })
  else
    (Status.CRYPTO_LIB_ERR_NULL_BUFFER, { s with sadb_mariadb_config := none })

/-- The function `crypto_config_add_gvcid_managed_parameter_recursion` on the
node `managed_parameter` whose `next` pointer is the list `next`; the result
carries the node with its updated tail. The `calloc` of the new node is not
checked: when it fails the assignment `managed_parameter->next->tfvn = tfvn`
dereferences a null pointer (`none`). -/
def crypto_config_add_gvcid_managed_parameter_recursion (calloc_ok : Bool)
    (tfvn scid vcid has_fecf has_segmentation_hdr : Nat) :
    GvcidManagedParameters_t → List GvcidManagedParameters_t →
      Option (Status × List GvcidManagedParameters_t)
  | managed_parameter, next_node :: rest =>
    match crypto_config_add_gvcid_managed_parameter_recursion calloc_ok tfvn scid vcid has_fecf
        has_segmentation_hdr next_node rest with
    | none => none
    | some (status, next) => some (status, managed_parameter :: next)
  | managed_parameter, [] =>
    if calloc_ok then
      some (Status.CRYPTO_LIB_SUCCESS,
        [managed_parameter,
         { tfvn := tfvn, scid := scid, vcid := vcid, has_fecf := has_fecf,
           has_segmentation_hdr := has_segmentation_hdr }])
    else none

/-- The function `Crypto_Config_Add_Gvcid_Managed_Parameter`. -/
def Crypto_Config_Add_Gvcid_Managed_Parameter (calloc_ok : Bool)
    (tfvn scid vcid has_fecf has_segmentation_hdr : Nat) (s : LibState) :
    Option (Status × LibState) :=
  let status := Status.CRYPTO_LIB_SUCCESS
  match s.gvcid_managed_parameters with
  | [] =>
    if calloc_ok then
      some (status, { s with gvcid_managed_parameters :=
        [{ tfvn := tfvn, scid := scid, vcid := vcid, has_fecf := has_fecf,
           has_segmentation_hdr := has_segmentation_hdr }] })
    else
      some (Status.CRYPTO_LIB_ERR_NULL_BUFFER, s)
  | root :: next =>
    match crypto_config_add_gvcid_managed_parameter_recursion calloc_ok tfvn scid vcid has_fecf
        has_segmentation_hdr root next with
    | none => none
    | some (status, nodes) => some (status, { s with gvcid_managed_parameters := nodes })

/-! ## The MariaDB backend: reading a security association (`sadb_routine_mariadb.template.c`, lines 47-56, 123-145, 223-425) -/

/-- The select list shared by `SQL_SADB_GET_SA_BY_SPI` and
`SQL_SADB_GET_SA_BY_GVCID`, one entry per comma-separated item. The server
names each column of the result set after its item. -/
def SA_SELECT_LIST : List String :=
  ["spi", "ekid", "akid", "sa_state", "tfvn", "scid", "vcid", "mapid", "lpid", "est", "ast",
   "shivf_len", "shsnf_len", "shplf_len", "stmacf_len", "ecs_len", "HEX(ecs)",
   "iv_len", "HEX(iv)", "acs_len", "acs", "abm_len", "HEX(abm)", "arc_len", "HEX(arc)",
   "arcw_len", "HEX(arcw)"]

/-- The text `snprintf` makes of a `%d` argument that is not negative. -/
def fmt_d (n : Nat) : String := toString n

/-- The statement `snprintf(spi_query, sizeof(spi_query), SQL_SADB_GET_SA_BY_SPI, spi)`
writes. It is far shorter than the 2048 bytes of the buffer. -/
def SQL_SADB_GET_SA_BY_SPI (spi : Nat) : String :=
  "SELECT " ++ ",".intercalate SA_SELECT_LIST ++
    " FROM security_associations WHERE spi='" ++ fmt_d spi ++ "'"

/-- The statement `snprintf` writes from `SQL_SADB_GET_SA_BY_GVCID`. -/
def SQL_SADB_GET_SA_BY_GVCID (tfvn scid vcid mapid sa_state : Nat) : String :=
  "SELECT " ++ ",".intercalate SA_SELECT_LIST ++
    " FROM security_associations WHERE tfvn='" ++ fmt_d tfvn ++ "' AND scid='" ++ fmt_d scid ++
    "' AND vcid='" ++ fmt_d vcid ++ "' AND mapid='" ++ fmt_d mapid ++
    "' AND sa_state='" ++ fmt_d sa_state ++ "'"

/-- The digits loop of `atoi`: decimal digits are accumulated until the first
character that is not one. -/
def atoi_digits : List Char → Nat → Nat
  | [], acc => acc
  | c :: cs, acc =>
    if '0' ≤ c ∧ c ≤ '9' then atoi_digits cs (10 * acc + (c.toNat - '0'.toNat)) else acc

/-- The C function `atoi`: white space, an optional sign, decimal digits. The
value is exact; a value outside `int`, for which C leaves the result open, is
not cut down here. -/
def atoi (nptr : String) : Int :=
  match nptr.data.dropWhile isspace with
  | [] => 0
  | c :: cs =>
    if c = '-' then -((atoi_digits cs 0 : Nat) : Int)
    else if c = '+' then ((atoi_digits cs 0 : Nat) : Int)
    else ((atoi_digits (c :: cs) 0 : Nat) : Int)

/-- The member `gvcid_tc_blk` of a security association. -/
structure crypto_gvcid_t where
  tfvn : Nat
  scid : Nat
  vcid : Nat
  mapid : Nat
  deriving DecidableEq, Repr

/-- The members of `SecurityAssociation_t` the backend touches. `iv`, `arc`
and `abm` are pointers to heap blocks (`none` is `NULL`), `ecs` is an array
inside the structure. -/
structure SecurityAssociation_t where
  spi : Nat
  ekid : Nat
  akid : Nat
  sa_state : Nat
  gvcid_tc_blk : crypto_gvcid_t
  lpid : Nat
  est : Nat
  ast : Nat
  shivf_len : Nat
  shsnf_len : Nat
  shplf_len : Nat
  stmacf_len : Nat
  ecs_len : Nat
  ecs : Nat → Nat
  iv : Option (Nat → Nat)
  acs_len : Nat
  acs : Nat
  abm_len : Nat
  abm : Option (Nat → Nat)
  arc_len : Nat
  arc : Option (Nat → Nat)
  arcw_len : Nat
  arcw : Nat

/-- The scalar members `parse_sa_from_mysql_query` assigns from `atoi`. -/
inductive SaField
  | spi | ekid | akid | sa_state | tfvn | scid | vcid | mapid | lpid | est | ast
  | shivf_len | shsnf_len | shplf_len | stmacf_len | ecs_len | acs_len | acs | abm_len
  | arc_len | arcw_len | arcw
  deriving DecidableEq, Repr

/-- The locals of `parse_sa_from_mysql_query` that live across the loops. The
three `char *` locals `iv_byte_str`, `arc_byte_str` and `abm_byte_str` are
`some text` when they address a readable C string and `none` when they do not. -/
structure ParseLocals where
  sa : SecurityAssociation_t
  field_names : List String
  iv_byte_str : Option String
  arc_byte_str : Option String
  abm_byte_str : Option String

/-- What `parse_sa_from_mysql_query` starts from without having set it: the
contents of the block `malloc` returns for `sa`, and the three `char *` locals
of lines 255-257, which are declared without a value. Such a pointer is `none`
when it does not address a readable C string, so that handing it to `sscanf`
ends the program (the usual case), and `some text` when the stack happens to
hold the address of the string `text`. -/
structure Uninitialised where
  sa : SecurityAssociation_t
  iv_byte_str : Option String
  arc_byte_str : Option String
  abm_byte_str : Option String

/-- The chain of `strcmp` tests on one non-`NULL` column (lines 277-409), in
source order; a name that matches none leaves everything as it is. `narrow f`
is the conversion from the `int` of `atoi` to the type of member `f`, which
`crypto_structs.h` declares. -/
def parse_field (narrow : SaField → Int → Nat) (name value : String) (l : ParseLocals) :
    ParseLocals :=
  if name = "spi" then
    { l with sa := { l.sa with spi := narrow SaField.spi (atoi value) } }
  else if name = "ekid" then
    { l with sa := { l.sa with ekid := narrow SaField.ekid (atoi value) } }
  else if name = "akid" then
    { l with sa := { l.sa with akid := narrow SaField.akid (atoi value) } }
  else if name = "sa_state" then
    { l with sa := { l.sa with sa_state := narrow SaField.sa_state (atoi value) } }
  else if name = "tfvn" then
    { l with sa := { l.sa with gvcid_tc_blk :=
      { l.sa.gvcid_tc_blk with tfvn := narrow SaField.tfvn (atoi value) } } }
  else if name = "scid" then
    { l with sa := { l.sa with gvcid_tc_blk :=
      { l.sa.gvcid_tc_blk with scid := narrow SaField.scid (atoi value) } } }
  else if name = "vcid" then
    { l with sa := { l.sa with gvcid_tc_blk :=
      { l.sa.gvcid_tc_blk with vcid := narrow SaField.vcid (atoi value) } } }
  else if name = "mapid" then
    { l with sa := { l.sa with gvcid_tc_blk :=
      { l.sa.gvcid_tc_blk with mapid := narrow SaField.mapid (atoi value) } } }
  else if name = "lpid" then
    { l with sa := { l.sa with lpid := narrow SaField.lpid (atoi value) } }
  else if name = "est" then
    { l with sa := { l.sa with est := narrow SaField.est (atoi value) } }
  else if name = "ast" then
    { l with sa := { l.sa with ast := narrow SaField.ast (atoi value) } }
  else if name = "shivf_len" then
    { l with sa := { l.sa with shivf_len := narrow SaField.shivf_len (atoi value) } }
  else if name = "shsnf_len" then
    { l with sa := { l.sa with shsnf_len := narrow SaField.shsnf_len (atoi value) } }
  else if name = "shplf_len" then
    { l with sa := { l.sa with shplf_len := narrow SaField.shplf_len (atoi value) } }
  else if name = "stmacf_len" then
    { l with sa := { l.sa with stmacf_len := narrow SaField.stmacf_len (atoi value) } }
  else if name = "ecs_len" then
    { l with sa := { l.sa with ecs_len := narrow SaField.ecs_len (atoi value) } }
  else if name = "HEX(ecs)" then
    { l with sa := { l.sa with ecs := (convert_hexstring_to_byte_array value l.sa.ecs).1 } }
  else if name = "HEX(iv)" then
    { l with iv_byte_str := some value }
  else if name = "acs_len" then
    { l with sa := { l.sa with acs_len := narrow SaField.acs_len (atoi value) } }
  else if name = "acs" then
    { l with sa := { l.sa with acs := narrow SaField.acs (atoi value) } }
  else if name = "abm_len" then
    { l with sa := { l.sa with abm_len := narrow SaField.abm_len (atoi value) } }
  else if name = "HEX(abm)" then
    { l with abm_byte_str := some value }
  else if name = "arc_len" then
    { l with sa := { l.sa with arc_len := narrow SaField.arc_len (atoi value) } }
  else if name = "HEX(arc)" then
    { l with arc_byte_str := some value }
  else if name = "arcw_len" then
    { l with sa := { l.sa with arcw_len := narrow SaField.arcw_len (atoi value) } }
  else if name = "arcw" then
    { l with sa := { l.sa with arcw := narrow SaField.arcw (atoi value) } }
  else l

/-- The body of the loop over the columns for column `i` (lines 262-410). At
`i == 0` the inner `while` copies every column name `mysql_fetch_field` still
has to give into `field_names`: all of them for the first row, none for a
later row, so `field_names` is the result's column names either way. A `NULL`
column (`none`, also past the end of the row) is skipped. -/
def parse_column (narrow : SaField → Int → Nat) (result : MysqlResult)
    (row : List (Option String)) (i : Nat) (l : ParseLocals) : ParseLocals :=
  let l := if i = 0 then { l with field_names := result.fields } else l
  match row.getD i none with
  | none => l
  | some value => parse_field narrow (l.field_names.getD i "") value l

/-- The loop `for (int i = 0; i < num_fields; i++)`, from column `i` for
`count` more columns. -/
def parse_columns (narrow : SaField → Int → Nat) (result : MysqlResult)
    (row : List (Option String)) : Nat → Nat → ParseLocals → ParseLocals
  | 0, _, l => l
  | count + 1, i, l =>
    parse_columns narrow result row count (i + 1) (parse_column narrow result row i l)

/-- The loop `while ((row = mysql_fetch_row(result)))` over the remaining rows. -/
def parse_rows (narrow : SaField → Int → Nat) (result : MysqlResult) :
    List (List (Option String)) → ParseLocals → ParseLocals
  | [], l => l
  | row :: rows, l =>
    parse_rows narrow result rows (parse_columns narrow result row result.fields.length 0 l)

/-- The call `calloc(1, n)`, taken to succeed: a block of zero bytes. -/
def calloc_block : Nat → Nat := fun _ => 0

/-- The function `parse_sa_from_mysql_query(query, security_association)`:
the status, the value stored through `security_association` (`none` when
nothing is stored) and the state afterwards. The result is `none` when the
call does not return: lines 417-419 hand `iv_byte_str`, `arc_byte_str` and
`abm_byte_str` to `sscanf`, and a pointer that no row has set and that does not
address a readable string ends the program there. `malloc` and `calloc` are
taken to succeed; `u` supplies what the function reads without having set it. -/
def parse_sa_from_mysql_query (narrow : SaField → Int → Nat) (env : Env) (u : Uninitialised)
    (query : String) (s : LibState) :
    Option (Status × Option SecurityAssociation_t × LibState) :=
  let status := Status.CRYPTO_LIB_SUCCESS
  match env.mysql_exec query with
  | QueryOutcome.query_error =>
    let (status, con) := finish_with_error s.con Status.SADB_QUERY_FAILED
    some (status, none, { s with con := con })
  | QueryOutcome.no_result_set =>
    let (status, con) := finish_with_error s.con Status.SADB_QUERY_EMPTY_RESULTS
    some (status, none, { s with con := con })
  | QueryOutcome.result_set result =>
    let l : ParseLocals :=
      { sa := u.sa, field_names := [], iv_byte_str := u.iv_byte_str,
        arc_byte_str := u.arc_byte_str, abm_byte_str := u.abm_byte_str }
    let l := parse_rows narrow result result.rows l
    let sa := l.sa
    let sa := { sa with iv := some calloc_block }
    let sa := { sa with arc := some calloc_block }
    let sa := { sa with abm := some calloc_block }
    match l.iv_byte_str with
    | none => none
    | some iv_byte_str =>
      let sa := { sa with iv := some (convert_hexstring_to_byte_array iv_byte_str calloc_block).1 }
      match l.arc_byte_str with
      | none => none
      | some arc_byte_str =>
        let sa :=
          { sa with arc := some (convert_hexstring_to_byte_array arc_byte_str calloc_block).1 }
        match l.abm_byte_str with
        | none => none
        | some abm_byte_str =>
          let sa :=
            { sa with abm := some (convert_hexstring_to_byte_array abm_byte_str calloc_block).1 }
          some (status, some sa, s)

/-- The MariaDB `sadb_get_sa_from_spi(spi, security_association)`. -/
def sadb_get_sa_from_spi (narrow : SaField → Int → Nat) (env : Env) (u : Uninitialised)
    (spi : Nat) (s : LibState) : Option (Status × Option SecurityAssociation_t × LibState) :=
  parse_sa_from_mysql_query narrow env u (SQL_SADB_GET_SA_BY_SPI spi) s

/-- The MariaDB `sadb_get_operational_sa_from_gvcid(tfvn, scid, vcid, mapid, security_association)`. -/
def sadb_get_operational_sa_from_gvcid (m : Macros) (narrow : SaField → Int → Nat) (env : Env)
    (u : Uninitialised) (tfvn scid vcid mapid : Nat) (s : LibState) :
    Option (Status × Option SecurityAssociation_t × LibState) :=
  parse_sa_from_mysql_query narrow env u
    (SQL_SADB_GET_SA_BY_GVCID tfvn scid vcid mapid m.SA_OPERATIONAL) s

/-! ## Sequences of calls and concrete inputs -/

/-- The arguments of one call of `Crypto_Config_Add_Gvcid_Managed_Parameter`,
with the outcome of its `calloc`. -/
structure AddCall where
  calloc_ok : Bool
  tfvn : Nat
  scid : Nat
  vcid : Nat
  has_fecf : Nat
  has_segmentation_hdr : Nat
  deriving DecidableEq, Repr

/-- The record a call asks to add. -/
def AddCall.record (c : AddCall) : GvcidManagedParameters_t :=
  { tfvn := c.tfvn, scid := c.scid, vcid := c.vcid, has_fecf := c.has_fecf,
    has_segmentation_hdr := c.has_segmentation_hdr }

/-- The key `(tfvn, scid, vcid)` of a managed-parameter record. -/
def GvcidManagedParameters_t.triple (r : GvcidManagedParameters_t) : Nat × Nat × Nat :=
  (r.tfvn, r.scid, r.vcid)

/-- A sequence of `Crypto_Config_Add_Gvcid_Managed_Parameter` calls, one after
the other; `none` when one of them does not return. -/
def run_add_calls : List AddCall → LibState → Option LibState
  | [], s => some s
  | c :: calls, s =>
    match Crypto_Config_Add_Gvcid_Managed_Parameter c.calloc_ok c.tfvn c.scid c.vcid c.has_fecf
        c.has_segmentation_hdr s with
    | none => none
    | some (_, s) => run_add_calls calls s

/-- A state in which nothing has been configured or initialised: every pointer
null, every cell zero. It serves as a concrete input. -/
def unconfigured : LibState :=
  { crypto_config := none
    sadb_mariadb_config := none
    gvcid_managed_parameters := []
    current_managed_parameters := none
    sadb_routine := none
    con := MysqlHandle.unset
    ek_ring := fun _ => { value := fun _ => 0, key_state := KeyState.KEY_PREACTIVE }
    tm_frame :=
      { tm_header :=
          { tfvn := 0, scid := 0, vcid := 0, ocff := 0, mcfc := 0, vcfc := 0, tfsh := 0, sf := 0,
            pof := 0, slid := 0, fhp := 0 }
        tm_sec_header := { spi := 0, iv := fun _ => 0 }
        tm_pdu := fun _ => 0
        tm_sec_trailer := { mac := fun _ => 0, ocf := fun _ => 0, fecf := 0 } }
    clcw :=
      { cwt := 0, cvn := 0, sf := 0, cie := 0, vci := 0, spare0 := 0, nrfa := 0, nbl := 0,
        lo := 0, wait := 0, rt := 0, fbc := 0, spare1 := 0, rv := 0 }
    report :=
      { cwt := 0, vnum := 0, af := 0, bsnf := 0, bmacf := 0, ispif := 0, lspiu := 0, snval := 0 }
    log_summary := { num_se := 0, rs := 0 }
    mc_log_blk := fun _ => { emt := 0, emv := fun _ => 0, em_len := 0 }
    log_count := 0
    crc := { crc32Table := fun _ => 0, crc16Table := fun _ => 0 } }

/-- One assignment of the macros, for concrete inputs. -/
def sample_macros : Macros :=
  { SADB_TYPE_INMEMORY := 0
    SADB_TYPE_MARIADB := 1
    SA_OPERATIONAL := 3
    SCID := 0x0003
    IV_SIZE := 12
    TM_FRAME_DATA_SIZE := 1740
    MAC_SIZE := 16
    OCF_SIZE := 4
    LOG_SIZE := 50
    STARTUP := 0 }

/-- The state the set-up of the MariaDB connection test leaves: a configuration
with `sadb_type = SADB_TYPE_MARIADB`, two managed parameters and a MariaDB
configuration. -/
def mariadb_configured : LibState :=
  { unconfigured with
    crypto_config := some
      ({ sadb_type := sample_macros.SADB_TYPE_MARIADB, crypto_create_fecf := 1,
         process_sdls_pdus := 1, has_pus_hdr := 1, ignore_sa_state := 0, ignore_anti_replay := 0,
         unique_sa_per_mapid := 1, crypto_check_fecf := 1, vcid_bitmask := 0x3F } : CryptoConfig_t)
    gvcid_managed_parameters :=
      [{ tfvn := 0, scid := 0x0003, vcid := 0, has_fecf := 1, has_segmentation_hdr := 1 },
       { tfvn := 0, scid := 0x0003, vcid := 1, has_fecf := 1, has_segmentation_hdr := 1 }]
    sadb_mariadb_config := some
      ({ mysql_username := some "testuser2", mysql_password := none,
         mysql_hostname := some "asec-cmdenc-dev2.jpl.nasa.gov", mysql_database := none,
         mysql_port := 3306 } : SadbMariaDBConfig_t) }

/-- Collaborators with a server nobody can reach: `mysql_real_connect` fails,
every statement fails. -/
def unreachable_env : Env :=
  { mysql_real_connect := fun _ => false
    mysql_exec := fun _ => QueryOutcome.query_error
    inmemory_sadb_init := Status.CRYPTO_LIB_SUCCESS
    inmemory_sadb_config := Status.CRYPTO_LIB_SUCCESS }

/-- Collaborators whose server answers every statement with the rows `rows`
under the column names of the SA select list. -/
def answering_env (rows : List (List (Option String))) : Env :=
  { mysql_real_connect := fun _ => true
    mysql_exec := fun _ => QueryOutcome.result_set { fields := SA_SELECT_LIST, rows := rows }
    inmemory_sadb_init := Status.CRYPTO_LIB_SUCCESS
    inmemory_sadb_config := Status.CRYPTO_LIB_SUCCESS }

/-- A block that `malloc` returned with every member zero and null, and three
pointers that address nothing readable. -/
def zero_uninitialised : Uninitialised :=
  { sa :=
      { spi := 0, ekid := 0, akid := 0, sa_state := 0,
        gvcid_tc_blk := { tfvn := 0, scid := 0, vcid := 0, mapid := 0 },
        lpid := 0, est := 0, ast := 0, shivf_len := 0, shsnf_len := 0, shplf_len := 0,
        stmacf_len := 0, ecs_len := 0, ecs := fun _ => 0, iv := none, acs_len := 0, acs := 0,
        abm_len := 0, abm := none, arc_len := 0, arc := none, arcw_len := 0, arcw := 0 }
    iv_byte_str := none
    arc_byte_str := none
    abm_byte_str := none }

/-- The same block on a stack that earlier calls left so that the three
pointers address empty strings. -/
def readable_uninitialised : Uninitialised :=
  { zero_uninitialised with
    iv_byte_str := some "", arc_byte_str := some "", abm_byte_str := some "" }

/-- The conversion of an `int` that is not negative to an unsigned member wide
enough to hold it (and of a negative one to 0, which no input here uses). -/
def sample_narrow : SaField → Int → Nat := fun _ v => v.toNat

/-- A row of `security_associations` as the select list returns it, column by
column: `spi` is 7, `sa_state` is 3, the last column `HEX(arcw)` says that the
anti-replay window `arcw` is 5. -/
def sample_row : List (Option String) :=
  [some "7", some "130", some "0", some "3", some "0", some "3", some "0", some "0", some "1",
   some "1", some "1", some "12", some "2", some "0", some "16", some "1", some "01",
   some "12", some "000000000000000000000001", some "0", some "0", some "19",
   some "00000000000000000000000000000000000000", some "1", some "05",
   some "1", some "05"]

/-! ## The MariaDB backend: saving a security association (`sadb_routine_mariadb.template.c`, lines 57-60, 146-181) -/

/-- What `snprintf(buffer, 2048, ...)` leaves in the buffer of a text: its
first 2047 characters. -/
def snprintf_2048 (text : String) : String := String.mk (text.data.take 2047)

/-- The text the format `SQL_SADB_UPDATE_IV_ARC_BY_SPI` expands to for two
`%s` arguments and five `%d` arguments that are not negative. -/
def SQL_SADB_UPDATE_IV_ARC_BY_SPI (iv_hexstr arc_hexstr : String)
    (spi tfvn scid vcid mapid : Nat) : String :=
  "UPDATE security_associations" ++ " SET iv=X'" ++ iv_hexstr ++ "', arc=X'" ++ arc_hexstr ++ "'" ++
    " WHERE spi='" ++ fmt_d spi ++ "' AND tfvn='" ++ fmt_d tfvn ++ "' AND scid='" ++ fmt_d scid ++
    "' AND vcid='" ++ fmt_d vcid ++ "' AND mapid='" ++ fmt_d mapid ++ "'"

/-- The statement `sadb_save_sa` writes into `update_sa_query` for the SA `sa`
(lines 154-158): the two hex strings come from
`convert_byte_array_to_hexstring(sa->iv, sa->shivf_len)` and
`convert_byte_array_to_hexstring(sa->arc, sa->shsnf_len)`. The result is `none`
when one of them is `NULL`, for which `%s` is undefined. -/
def update_sa_query (sa : SecurityAssociation_t) : Option String :=
  match convert_byte_array_to_hexstring sa.iv sa.shivf_len,
      convert_byte_array_to_hexstring sa.arc sa.shsnf_len with
  | some iv_hexstr, some arc_hexstr =>
    some (snprintf_2048 (SQL_SADB_UPDATE_IV_ARC_BY_SPI iv_hexstr arc_hexstr sa.spi
      sa.gvcid_tc_blk.tfvn sa.gvcid_tc_blk.scid sa.gvcid_tc_blk.vcid sa.gvcid_tc_blk.mapid))
  | _, _ => none

/-- The MariaDB `sadb_save_sa(sa)`; `sa` is `none` for a null pointer. After a
successful query the function frees the SA and its buffers, which leaves the
globals alone. The result is `none` when the statement cannot be formatted
(see `update_sa_query`). -/
def sadb_save_sa (env : Env) (sa : Option SecurityAssociation_t) (s : LibState) :
    Option (Status × LibState) :=
  let status := Status.CRYPTO_LIB_SUCCESS
  match sa with
  | none => some (Status.SADB_NULL_SA_USED, s)
  | some sa =>
    match update_sa_query sa with
    | none => none
    | some query =>
      match env.mysql_exec query with
      | QueryOutcome.query_error =>
        let (status, con) := finish_with_error s.con Status.SADB_QUERY_FAILED
        some (status, { s with con := con })
      | _ => some (status, s)

/-! ## Reference notions for the statements below -/

/-- The upper-case hexadecimal digit of a value below 16. -/
def upper_hex_digit (d : Nat) : Char := "0123456789ABCDEF".data.getD d '0'

/-- The characters of the upper-case hexadecimal text of a byte sequence: two
digits per byte, high digit first. -/
def upper_hex_chars : List Nat → List Char
  | [] => []
  | b :: bytes =>
    upper_hex_digit (b % 256 / 16) :: upper_hex_digit (b % 256 % 16) :: upper_hex_chars bytes

/-- The upper-case hexadecimal text of a byte sequence. -/
def upper_hex (bytes : List Nat) : String := String.mk (upper_hex_chars bytes)

/-- The first `n` bytes of a buffer. -/
def first_bytes (buffer : Nat → Nat) (n : Nat) : List Nat := (List.range n).map buffer

/-- The 32 bytes `value[0] .. value[31]` of slot `k` of a key ring. -/
def key_bytes (ek_ring : Nat → crypto_key_t) (k : Nat) : List Nat :=
  first_bytes (ek_ring k).value 32

/-- The byte one key-ring assignment stores in `ek_ring[k].value[j]`, `none`
when it does not assign that cell. -/
def KeyWrite.byte_at (k j : Nat) : KeyWrite → Option Nat
  | KeyWrite.value k' bytes => if k' = k then bytes[j]? else none
  | KeyWrite.key_state _ _ => none

/-- The state one key-ring assignment stores in `ek_ring[k].key_state`, `none`
when it does not assign it. -/
def KeyWrite.state_at (k : Nat) : KeyWrite → Option KeyState
  | KeyWrite.value _ _ => none
  | KeyWrite.key_state k' st => if k' = k then some st else none

/-- The byte the last assignment to `ek_ring[k].value[j]` in a run of key-ring
assignments stores, `none` when the run does not assign that cell. -/
def last_key_byte (k j : Nat) : List KeyWrite → Option Nat
  | [] => none
  | w :: ws =>
    match last_key_byte k j ws with
    | some b => some b
    | none => w.byte_at k j

/-- The state the last assignment to `ek_ring[k].key_state` in a run of
key-ring assignments stores, `none` when the run does not assign it. -/
def last_key_state (k : Nat) : List KeyWrite → Option KeyState
  | [] => none
  | w :: ws =>
    match last_key_state k ws with
    | some st => some st
    | none => w.state_at k

/-- The 32 bytes a run of key-ring assignments leaves in slot `k` when it
assigns all of them (0 stands in for a byte it does not assign). -/
def written_key_bytes (ws : List KeyWrite) (k : Nat) : List Nat :=
  (List.range 32).map (fun j => (last_key_byte k j ws).getD 0)

/-- Whether a run of key-ring assignments leaves slot `k` with 32 bytes whose
upper-case hexadecimal text is `hex` and with the state `st`, whatever the slot
held before: every byte is assigned, each is below 256, their text is `hex`,
and the state is assigned `st`. -/
def key_written_as (ws : List KeyWrite) (k : Nat) (hex : String) (st : KeyState) : Bool :=
  (List.range 32).all (fun j => (last_key_byte k j ws).isSome) &&
  (written_key_bytes ws k).all (fun b => decide (b < 256)) &&
  decide (upper_hex (written_key_bytes ws k) = hex) &&
  decide (last_key_state k ws = some st)

/-- The comments of `Crypto_Local_Config` on the keys of lines 332-674: slot,
value in hexadecimal, state. -/
def documented_keys : List (Nat × String × KeyState) :=
  [(0, "000102030405060708090A0B0C0D0E0F000102030405060708090A0B0C0D0E0F", KeyState.KEY_ACTIVE),
   (1, "101112131415161718191A1B1C1D1E1F101112131415161718191A1B1C1D1E1F", KeyState.KEY_ACTIVE),
   (2, "202122232425262728292A2B2C2D2E2F202122232425262728292A2B2C2D2E2F", KeyState.KEY_ACTIVE),
   (128, "0123456789ABCDEF0123456789ABCDEF0123456789ABCDEF0123456789ABCDEF",
     KeyState.KEY_ACTIVE),
   (129, "ABCDEF0123456789ABCDEF0123456789ABCDEF0123456789ABCDEF0123456789",
     KeyState.KEY_ACTIVE),
   (130, "FEDCBA9876543210FEDCBA9876543210FEDCBA9876543210FEDCBA9876543210",
     KeyState.KEY_ACTIVE),
   (131, "9876543210FEDCBA9876543210FEDCBA9876543210FEDCBA9876543210FEDCBA",
     KeyState.KEY_ACTIVE),
   (132, "0123456789ABCDEFABCDEF01234567890123456789ABCDEFABCDEF0123456789",
     KeyState.KEY_PREACTIVE),
   (133, "ABCDEF01234567890123456789ABCDEFABCDEF01234567890123456789ABCDEF",
     KeyState.KEY_ACTIVE),
   (134, "ABCDEF0123456789FEDCBA9876543210ABCDEF0123456789FEDCBA9876543210",
     KeyState.KEY_DEACTIVATED)]

/-- The comment of `Crypto_Local_Config` on key 136 (line 711), in upper case. -/
def documented_key_136 : String :=
  "EF9F9284CF599EAC3B119905A7D18851E7E374CF63AEA04358586B0F757670F8"

/-- A security association with an IV of twelve bytes `00 .. 0B` and a
sequence number of two bytes `01 02`, for concrete inputs. -/
def sample_sa : SecurityAssociation_t :=
  { spi := 7, ekid := 130, akid := 0, sa_state := 3,
    gvcid_tc_blk := { tfvn := 0, scid := 3, vcid := 1, mapid := 0 },
    lpid := 1, est := 1, ast := 1, shivf_len := 12, shsnf_len := 2, shplf_len := 0,
    stmacf_len := 16, ecs_len := 1, ecs := fun _ => 1, iv := some (fun i => i), acs_len := 0,
    acs := 0, abm_len := 19, abm := some (fun _ => 0), arc_len := 2,
    arc := some (fun i => i + 1), arcw_len := 1, arcw := 5 }

/-- The MariaDB set-up with a `sadb_type` of 2, which `sample_macros` gives to
no backend. -/
def unknown_type_configured : LibState :=
  { mariadb_configured with
    crypto_config := some
      ({ sadb_type := 2, crypto_create_fecf := 1, process_sdls_pdus := 1, has_pus_hdr := 1,
         ignore_sa_state := 0, ignore_anti_replay := 0, unique_sa_per_mapid := 1,
         crypto_check_fecf := 1, vcid_bitmask := 0x3F } : CryptoConfig_t) }

/-- The UPDATE statement that assigns `iv` and `arc` the upper-case
hexadecimal text of two byte sequences, in the row selected by `spi`, `tfvn`,
`scid`, `vcid` and `mapid`. -/
def update_iv_arc_statement (iv_bytes arc_bytes : List Nat) (spi tfvn scid vcid mapid : Nat) :
    String :=
  "UPDATE security_associations SET iv=X'" ++ upper_hex iv_bytes ++ "', arc=X'" ++
    upper_hex arc_bytes ++ "' WHERE spi='" ++ toString spi ++ "' AND tfvn='" ++ toString tfvn ++
    "' AND scid='" ++ toString scid ++ "' AND vcid='" ++ toString vcid ++ "' AND mapid='" ++
    toString mapid ++ "'"

/-! ## The MariaDB backend: SA management (`sadb_routine_mariadb.template.c`, lines 183-220) -/

/-- The MariaDB `sadb_sa_start(tc_frame)` (lines 187-191): it assigns its
parameter to itself and returns. It sends no statement to the server, so
`store`, the content of the server's table, comes back as it is. -/
def sadb_sa_start {TC Store : Type} (_tc_frame : TC) (store : Store) (s : LibState) :
    Status × Store × LibState :=
  (Status.CRYPTO_LIB_SUCCESS, store, s)

/-- The MariaDB `sadb_sa_stop()` (lines 183-186), with the server's table as for `sadb_sa_start`. -/
def sadb_sa_stop {Store : Type} (store : Store) (s : LibState) : Status × Store × LibState :=
  (Status.CRYPTO_LIB_SUCCESS, store, s)

/-- A row of the server's table reduced to its key and its state. -/
structure StoredSa where
  spi : Nat
  sa_state : Nat
  deriving DecidableEq, Repr

/-- The state the table holds for the SA `spi`, `none` when it has no such row. -/
def stored_sa_state (store : List StoredSa) (spi : Nat) : Option Nat :=
  (store.find? (fun row => row.spi = spi)).map StoredSa.sa_state

/-- A table with one SA, `spi` 1, in state 2, the state before
`sample_macros.SA_OPERATIONAL` (Keyed). -/
def keyed_store : List StoredSa := [{ spi := 1, sa_state := 2 }]

/-! ## Reference notions for the configuration calls -/

/-- The four statuses with which `Crypto_Init` reports an incomplete or
invalid configuration. -/
def is_configuration_error (status : Status) : Prop :=
  status = Status.CRYPTO_CONFIGURATION_NOT_COMPLETE ∨
  status = Status.CRYPTO_MANAGED_PARAM_CONFIGURATION_NOT_COMPLETE ∨
  status = Status.CRYPTO_MARIADB_CONFIGURATION_NOT_COMPLETE ∨
  status = Status.SADB_INVALID_SADB_TYPE

/-- A character of `0 .. 9` or `A .. F`. -/
def is_upper_hex_char (c : Char) : Prop :=
  ('0' ≤ c ∧ c ≤ '9') ∨ ('A' ≤ c ∧ c ≤ 'F')

/-- A text made of hexadecimal digits only (`0 .. 9`, `a .. f`, `A .. F`). -/
def is_hex_digit_string (text : String) : Prop :=
  ∀ c ∈ text.data, (xdigit_value c).isSome = true

/-- The MariaDB set-up without its MariaDB configuration. -/
def mariadb_without_config : LibState :=
  { mariadb_configured with sadb_mariadb_config := none }

/-! ## Lemmas: memory cells, loops -/

theorem store_same {α : Type} (a : Nat → α) (i : Nat) (v : α) : store a i v i = v := by
  simp [store]

theorem store_other {α : Type} (a : Nat → α) (i j : Nat) (v : α) (h : j ≠ i) :
    store a i v j = a j := by
  simp [store, h]

theorem crc32_table_loop_get (poly : Nat) (count : Nat) : ∀ (i : Nat) (t : Nat → Nat) (k : Nat),
    crc32_table_loop poly count i t k =
      if i ≤ k ∧ k < i + count then crc32_rounds poly 8 k else t k := by
  induction count with
  | zero => intro i t k; rw [crc32_table_loop, if_neg (by omega)]
  | succ n ih =>
    intro i t k
    rw [crc32_table_loop, ih]
    by_cases h1 : k = i
    · subst h1; simp [store_same]
    · rw [store_other _ _ _ _ h1]
      by_cases h2 : i ≤ k ∧ k < i + (n + 1)
      · rw [if_pos h2, if_pos (by omega)]
      · rw [if_neg h2, if_neg (by omega)]

theorem crc16_table_loop_get (count : Nat) : ∀ (i : Nat) (t : Nat → Nat) (k : Nat),
    crc16_table_loop count i t k = if i ≤ k ∧ k < i + count then crc16_val k else t k := by
  induction count with
  | zero => intro i t k; rw [crc16_table_loop, if_neg (by omega)]
  | succ n ih =>
    intro i t k
    rw [crc16_table_loop, ih]
    by_cases h1 : k = i
    · subst h1; simp [store_same]
    · rw [store_other _ _ _ _ h1]
      by_cases h2 : i ≤ k ∧ k < i + (n + 1)
      · rw [if_pos h2, if_pos (by omega)]
      · rw [if_neg h2, if_neg (by omega)]

set_option maxRecDepth 100000 in
theorem crc16_val_eq : ∀ i < 256, crc16_val i = crc16_ccitt_entry i := by decide

set_option maxRecDepth 100000 in
theorem crc32_rounds_eq : ∀ i < 256, crc32_rounds 0xEDB88320 8 i = crc32_reflected_entry i := by
  decide

theorem crc32_of_congr (t1 t2 : Nat → Nat) (h : ∀ k < 256, t1 k = t2 k) (bytes : List Nat) :
    crc32_of t1 bytes = crc32_of t2 bytes := by
  have hu : crc32_update t1 = crc32_update t2 := by
    funext crc b
    unfold crc32_update
    rw [h]
    have : (crc ^^^ b) &&& 0xFF ≤ 0xFF := Nat.and_le_right
    omega
  unfold crc32_of
  rw [hu]

/-! ## Lemmas: hex marshalling -/

set_option maxRecDepth 100000 in
theorem nibble_char_facts (a : Nat) (h : a < 16) :
    isspace (nibble_char a) = false ∧ nibble_char a ≠ '+' ∧ nibble_char a ≠ '-' ∧
    nibble_char a ≠ 'x' ∧ nibble_char a ≠ 'X' ∧ xdigit_value (nibble_char a) = some a := by
  interval_cases a <;> decide

set_option maxRecDepth 100000 in
theorem byte_nibbles : ∀ x < 256, 16 * ((x >>> 4) &&& 0x0F) + (x &&& 0x0F) = x := by
  decide

theorem sscanf_02x_nibbles (a b : Nat) (ha : a < 16) (hb : b < 16) (rest : List Char) :
    sscanf_02x (nibble_char a :: nibble_char b :: rest) = some (16 * a + b, 2) := by
  obtain ⟨a1, a2, a3, -, -, a6⟩ := nibble_char_facts a ha
  obtain ⟨-, -, -, b4, b5, b6⟩ := nibble_char_facts b hb
  simp [sscanf_02x, List.takeWhile, List.dropWhile, a1, a2, a3, a6, b4, b5, b6]

theorem sscanf_02x_nil : sscanf_02x [] = none := by
  simp [sscanf_02x]

theorem sscanf_02x_offset (data : List Char) (v off : Nat)
    (h : sscanf_02x data = some (v, off)) : 1 ≤ off ∧ data ≠ [] := by
  constructor
  · unfold sscanf_02x at h
    simp only at h
    split at h
    · simp at h
    · split at h
      · split at h
        · simp at h
        · split at h
          · simp at h
          · simp only [Option.some.injEq, Prod.mk.injEq] at h; omega
      · split at h
        · simp at h
        · split at h
          · simp only [Option.some.injEq, Prod.mk.injEq] at h; omega
          · split at h
            · simp at h
            · split at h <;> (simp only [Option.some.injEq, Prod.mk.injEq] at h; omega)
  · rintro rfl
    simp [sscanf_02x] at h

/-- The loop of `convert_hexstring_to_byte_array` stops by itself: any two
amounts of fuel above the length of the string give the same result. -/
theorem hexstring_loop_fuel (fuel1 : Nat) : ∀ (fuel2 : Nat) (data : List Char) (dest : Nat → Nat)
    (len : Nat), data.length < fuel1 → data.length < fuel2 →
    hexstring_loop fuel1 data dest len = hexstring_loop fuel2 data dest len := by
  induction fuel1 with
  | zero => intro fuel2 data dest len h1; omega
  | succ n ih =>
    intro fuel2 data dest len h1 h2
    cases fuel2 with
    | zero => omega
    | succ m =>
      simp only [hexstring_loop]
      cases hs : sscanf_02x data with
      | none => rfl
      | some p =>
        obtain ⟨v, off⟩ := p
        obtain ⟨ho, hne⟩ := sscanf_02x_offset data v off hs
        have hlen : 0 < data.length := List.length_pos.mpr hne
        have hd : (data.drop off).length < data.length := by
          rw [List.length_drop]; omega
        exact ih m _ _ _ (by omega) (by omega)

theorem hexstring_loop_encoded (bytes : Nat → Nat) (count : Nat) : ∀ (fuel i : Nat)
    (dest : Nat → Nat) (len : Nat), count < fuel →
    hexstring_loop fuel (byte_array_loop bytes i count) dest len =
      write_bytes bytes i count dest len := by
  induction count with
  | zero =>
    intro fuel i dest len h
    cases fuel with
    | zero => omega
    | succ m => simp [hexstring_loop, byte_array_loop, sscanf_02x_nil, write_bytes]
  | succ n ih =>
    intro fuel i dest len h
    cases fuel with
    | zero => omega
    | succ m =>
      have hx : bytes i % 256 < 256 := Nat.mod_lt _ (by norm_num)
      have hhi : ((bytes i % 256) >>> 4) &&& 0x0F < 16 :=
        Nat.lt_of_le_of_lt Nat.and_le_right (by norm_num)
      have hlo : (bytes i % 256) &&& 0x0F < 16 :=
        Nat.lt_of_le_of_lt Nat.and_le_right (by norm_num)
      rw [byte_array_loop, hexstring_loop, sscanf_02x_nibbles _ _ hhi hlo]
      simp only [List.drop_succ_cons, List.drop_zero]
      rw [byte_nibbles _ hx, Nat.mod_eq_of_lt hx, write_bytes]
      exact ih m (i + 1) _ _ (by omega)

theorem write_bytes_len (bytes : Nat → Nat) (count : Nat) : ∀ (i : Nat) (dest : Nat → Nat)
    (len : Nat), len < 256 → (write_bytes bytes i count dest len).2 = (len + count) % 256 := by
  induction count with
  | zero => intro i dest len h; simp [write_bytes, Nat.mod_eq_of_lt h]
  | succ n ih =>
    intro i dest len h
    rw [write_bytes, ih _ _ _ (Nat.mod_lt _ (by norm_num))]
    omega

theorem write_bytes_get (bytes : Nat → Nat) (count : Nat) : ∀ (i : Nat) (dest : Nat → Nat)
    (len : Nat), len + count ≤ 256 → ∀ k,
    (write_bytes bytes i count dest len).1 k =
      if len ≤ k ∧ k < len + count then bytes (i + (k - len)) % 256 else dest k := by
  induction count with
  | zero => intro i dest len h k; rw [write_bytes, if_neg (by omega)]
  | succ n ih =>
    intro i dest len h k
    rw [write_bytes]
    by_cases hn : n = 0
    · subst hn
      rw [write_bytes]
      dsimp only
      by_cases hk : k = len
      · subst hk; rw [store_same, if_pos (by omega)]; simp
      · rw [store_other _ _ _ _ hk, if_neg (by omega)]
    · have hl : (len + 1) % 256 = len + 1 := Nat.mod_eq_of_lt (by omega)
      rw [hl, ih _ _ _ (by omega)]
      by_cases hk : k = len
      · subst hk; rw [if_neg (by omega), store_same, if_pos (by omega)]; simp
      · rw [store_other _ _ _ _ hk]
        by_cases h2 : len + 1 ≤ k ∧ k < len + 1 + n
        · rw [if_pos h2, if_pos (by omega)]
          have : i + 1 + (k - (len + 1)) = i + (k - len) := by omega
          rw [this]
        · rw [if_neg h2, if_neg (by omega)]

theorem byte_array_loop_length (bytes : Nat → Nat) (count : Nat) : ∀ i,
    (byte_array_loop bytes i count).length = 2 * count := by
  induction count with
  | zero => intro i; simp [byte_array_loop]
  | succ n ih => intro i; simp [byte_array_loop, ih]; omega

theorem convert_encoded (bytes : Nat → Nat) (n : Nat) (dest : Nat → Nat) :
    convert_hexstring_to_byte_array (String.mk (byte_array_loop bytes 0 n)) dest =
      write_bytes bytes 0 n dest 0 := by
  unfold convert_hexstring_to_byte_array
  apply hexstring_loop_encoded
  simp [String.length, byte_array_loop_length]
  omega

theorem convert_byte_array_some (b : Nat → Nat) (n : Nat) :
    convert_byte_array_to_hexstring (some b) n = some (String.mk (byte_array_loop b 0 n)) := by
  unfold convert_byte_array_to_hexstring
  by_cases h0 : n = 0
  · subst h0; simp [byte_array_loop]
  · simp [h0]

/-! ## Hex marshalling: the round trip -/

/-- C4, as amended: for every byte buffer `b` of length `n ≤ 255` and every
destination, `convert_byte_array_to_hexstring` returns a string on which
`convert_hexstring_to_byte_array` returns `n`, writes byte `k` of `b` to
destination index `k` for every `k < n`, and leaves every other cell of the
destination as it was. -/
theorem hex_round_trip (b : Nat → Nat) (n : Nat) (dest : Nat → Nat) (hn : n ≤ 255) :
    ∃ hexstr, convert_byte_array_to_hexstring (some b) n = some hexstr ∧
      (convert_hexstring_to_byte_array hexstr dest).2 = n ∧
      (∀ k, k < n → (convert_hexstring_to_byte_array hexstr dest).1 k = b k % 256) ∧
      (∀ k, n ≤ k → (convert_hexstring_to_byte_array hexstr dest).1 k = dest k) := by
  refine ⟨String.mk (byte_array_loop b 0 n), convert_byte_array_some b n, ?_, ?_, ?_⟩
  · rw [convert_encoded, write_bytes_len _ _ _ _ _ (by norm_num)]
    simp; omega
  · intro k hk
    rw [convert_encoded, write_bytes_get _ _ _ _ _ (by omega), if_pos (by omega)]
    simp
  · intro k hk
    rw [convert_encoded, write_bytes_get _ _ _ _ _ (by omega), if_neg (by omega)]

/-- Witness of `hex_round_trip`: the three bytes FA FB FC. -/
theorem hex_round_trip_witness :
    (3 : Nat) ≤ 255 ∧
    ∃ hexstr, convert_byte_array_to_hexstring (some (fun i => 250 + i)) 3 = some hexstr ∧
      (convert_hexstring_to_byte_array hexstr (fun _ => 7)).2 = 3 ∧
      (∀ k, k < 3 → (convert_hexstring_to_byte_array hexstr (fun _ => 7)).1 k = (250 + k) % 256) ∧
      (∀ k, 3 ≤ k → (convert_hexstring_to_byte_array hexstr (fun _ => 7)).1 k = 7) :=
  ⟨by decide, hex_round_trip (fun i => 250 + i) 3 (fun _ => 7) (by decide)⟩

set_option maxRecDepth 1000000 in
/-- C4, counterexample: for the buffer of 256 zero bytes the encoder returns a
string of 512 digits, and the decoder returns 0 on it, not 256. -/
theorem hex_round_trip_fails_at_256 :
    (convert_byte_array_to_hexstring (some (fun _ => 0)) 256).map
        (fun hexstr => (convert_hexstring_to_byte_array hexstr (fun _ => 0)).2) = some 0 ∧
    (convert_byte_array_to_hexstring (some (fun _ => 0)) 256).map
        (fun hexstr => (convert_hexstring_to_byte_array hexstr (fun _ => 0)).2) ≠ some 256 := by
  decide

/-! ## CRC tables -/

/-- C5: for every `i` in `0..255` the entry `crc16Table[i]` that
`Crypto_Calc_CRC_Init_Table` writes, whatever the tables held before, is the
CRC-16-CCITT entry: eight steps of shift-left-and-XOR-0x1021 from `i << 8`. -/
theorem crc16Table_is_ccitt (t : CrcTables) (i : Nat) (h : i < 256) :
    (Crypto_Calc_CRC_Init_Table t).crc16Table i = crc16_ccitt_entry i := by
  simp only [Crypto_Calc_CRC_Init_Table]
  rw [crc16_table_loop_get, if_pos (by omega)]
  exact crc16_val_eq i h

/-- Witness of `crc16Table_is_ccitt`: entry 255. -/
theorem crc16Table_is_ccitt_witness :
    (255 : Nat) < 256 ∧
    (Crypto_Calc_CRC_Init_Table unconfigured.crc).crc16Table 255 = crc16_ccitt_entry 255 :=
  ⟨by decide, crc16Table_is_ccitt unconfigured.crc 255 (by decide)⟩

/-- C6: for every `i` in `0..255` the entry `crc32Table[i]` that
`Crypto_Calc_CRC_Init_Table` writes, whatever the tables held before, is the
reflected CRC-32 entry: eight steps of shift-right-and-XOR-0xEDB88320 from `i`;
entry 0 is 0 and entry 1 is 0x77073096. -/
theorem crc32Table_is_reflected (t : CrcTables) (i : Nat) (h : i < 256) :
    (Crypto_Calc_CRC_Init_Table t).crc32Table i = crc32_reflected_entry i ∧
    (Crypto_Calc_CRC_Init_Table t).crc32Table 0 = 0 ∧
    (Crypto_Calc_CRC_Init_Table t).crc32Table 1 = 0x77073096 := by
  simp only [Crypto_Calc_CRC_Init_Table]
  refine ⟨?_, ?_, ?_⟩
  · rw [crc32_table_loop_get, if_pos (by omega)]
    exact crc32_rounds_eq i h
  · rw [crc32_table_loop_get, if_pos (by omega)]; decide
  · rw [crc32_table_loop_get, if_pos (by omega)]; decide

/-- Witness of `crc32Table_is_reflected`: entry 255. -/
theorem crc32Table_is_reflected_witness :
    (255 : Nat) < 256 ∧
    ((Crypto_Calc_CRC_Init_Table unconfigured.crc).crc32Table 255 = crc32_reflected_entry 255 ∧
     (Crypto_Calc_CRC_Init_Table unconfigured.crc).crc32Table 0 = 0 ∧
     (Crypto_Calc_CRC_Init_Table unconfigured.crc).crc32Table 1 = 0x77073096) :=
  ⟨by decide, crc32Table_is_reflected unconfigured.crc 255 (by decide)⟩

set_option maxRecDepth 100000 in
/-- C7: with the table `Crypto_Calc_CRC_Init_Table` builds, whatever the tables
held before, the byte-wise reflected CRC-32 (initial value 0xFFFFFFFF, final XOR
0xFFFFFFFF) of the nine ASCII bytes "123456789" is 0xCBF43926. -/
theorem crc32_check_value (t : CrcTables) :
    crc32_of (Crypto_Calc_CRC_Init_Table t).crc32Table
      [0x31, 0x32, 0x33, 0x34, 0x35, 0x36, 0x37, 0x38, 0x39] = 0xCBF43926 := by
  rw [crc32_of_congr _ (crc32_rounds 0xEDB88320 8)]
  · decide
  · intro k hk
    simp only [Crypto_Calc_CRC_Init_Table]
    rw [crc32_table_loop_get, if_pos (by omega)]

/-! ## Initialisation and shutdown -/

/-- C1, the code at the failing input: with a configuration of type MariaDB,
managed parameters and a MariaDB configuration all set, and a server that
cannot be reached, the backend's `sadb_init` returns
`SADB_MARIADB_CONNECTION_FAILED`, and `Crypto_Init` returns
`CRYPTO_LIB_SUCCESS` all the same: the status of `sadb_init` is overwritten by
that of `sadb_config`. -/
theorem Crypto_Init_drops_connection_failure (m : Macros) (env : Env) (s : LibState)
    (cfg : CryptoConfig_t) (dbcfg : SadbMariaDBConfig_t)
    (hcfg : s.crypto_config = some cfg)
    (htype : cfg.sadb_type = m.SADB_TYPE_MARIADB)
    (hne : m.SADB_TYPE_MARIADB ≠ m.SADB_TYPE_INMEMORY)
    (hmp : s.gvcid_managed_parameters ≠ [])
    (hdb : s.sadb_mariadb_config = some dbcfg)
    (hconn : env.mysql_real_connect dbcfg = false) :
    (SadbRoutine.mariadb.sadb_init env { s with sadb_routine := some SadbRoutine.mariadb }).map
        Prod.fst = some Status.SADB_MARIADB_CONNECTION_FAILED ∧
    (Crypto_Init m env s).map Prod.fst = some Status.CRYPTO_LIB_SUCCESS := by
  obtain ⟨cc, db, mp, cur, rt, con, ek, tm, clcw, rep, ls, blk, lc, crc⟩ := s
  simp only at hcfg hmp hdb
  subst hcfg hdb
  cases mp with
  | nil => exact absurd rfl hmp
  | cons r rest =>
    refine ⟨?_, ?_⟩
    · simp [SadbRoutine.sadb_init, sadb_init, hconn, finish_with_error]
    · simp [Crypto_Init, htype, hne, Crypto_Init_backend, SadbRoutine.sadb_init, sadb_init,
        hconn, finish_with_error, SadbRoutine.sadb_config, sadb_config]

/-- Witness of `Crypto_Init_drops_connection_failure`: the set-up of the
connection test with an unreachable server. -/
theorem Crypto_Init_drops_connection_failure_witness :
    (SadbRoutine.mariadb.sadb_init unreachable_env
        { mariadb_configured with sadb_routine := some SadbRoutine.mariadb }).map
        Prod.fst = some Status.SADB_MARIADB_CONNECTION_FAILED ∧
    (Crypto_Init sample_macros unreachable_env mariadb_configured).map Prod.fst =
      some Status.CRYPTO_LIB_SUCCESS :=
  Crypto_Init_drops_connection_failure sample_macros unreachable_env mariadb_configured
    _ _ rfl rfl (by decide) (by simp [mariadb_configured]) rfl rfl

/-- C10: for every library state `Crypto_Shutdown` returns `CRYPTO_LIB_SUCCESS`
and leaves `crypto_config`, `sadb_mariadb_config`, `gvcid_managed_parameters`
and `current_managed_parameters` null; a `Crypto_Init` right after it returns
`CRYPTO_CONFIGURATION_NOT_COMPLETE` (and changes nothing), and a second
`Crypto_Shutdown` returns `CRYPTO_LIB_SUCCESS` and changes nothing. -/
theorem Crypto_Shutdown_resets (m : Macros) (env : Env) (s : LibState) :
    (Crypto_Shutdown s).1 = Status.CRYPTO_LIB_SUCCESS ∧
    (Crypto_Shutdown s).2.crypto_config = none ∧
    (Crypto_Shutdown s).2.sadb_mariadb_config = none ∧
    (Crypto_Shutdown s).2.gvcid_managed_parameters = [] ∧
    (Crypto_Shutdown s).2.current_managed_parameters = none ∧
    Crypto_Init m env (Crypto_Shutdown s).2 =
      some (Status.CRYPTO_CONFIGURATION_NOT_COMPLETE, (Crypto_Shutdown s).2) ∧
    Crypto_Shutdown (Crypto_Shutdown s).2 = (Status.CRYPTO_LIB_SUCCESS, (Crypto_Shutdown s).2) := by
  obtain ⟨cc, db, mp, cur, rt, con, ek, tm, clcw, rep, ls, blk, lc, crc⟩ := s
  cases cc <;> cases db <;> cases mp <;> simp [Crypto_Shutdown, Crypto_Init]

/-! ## Managed parameters -/

theorem add_recursion_appends (tfvn scid vcid has_fecf has_segmentation_hdr : Nat)
    (next : List GvcidManagedParameters_t) : ∀ managed_parameter : GvcidManagedParameters_t,
    crypto_config_add_gvcid_managed_parameter_recursion true tfvn scid vcid has_fecf
        has_segmentation_hdr managed_parameter next =
      some (Status.CRYPTO_LIB_SUCCESS,
        (managed_parameter :: next) ++
          [{ tfvn := tfvn, scid := scid, vcid := vcid, has_fecf := has_fecf,
             has_segmentation_hdr := has_segmentation_hdr }]) := by
  induction next with
  | nil => intro mp; simp [crypto_config_add_gvcid_managed_parameter_recursion]
  | cons n rest ih =>
    intro mp
    rw [crypto_config_add_gvcid_managed_parameter_recursion, ih n]
    simp

theorem add_appends (tfvn scid vcid has_fecf has_segmentation_hdr : Nat) (s : LibState) :
    Crypto_Config_Add_Gvcid_Managed_Parameter true tfvn scid vcid has_fecf
        has_segmentation_hdr s =
      some (Status.CRYPTO_LIB_SUCCESS,
        { s with gvcid_managed_parameters := s.gvcid_managed_parameters ++
          [{ tfvn := tfvn, scid := scid, vcid := vcid, has_fecf := has_fecf,
             has_segmentation_hdr := has_segmentation_hdr }] }) := by
  unfold Crypto_Config_Add_Gvcid_Managed_Parameter
  cases hl : s.gvcid_managed_parameters with
  | nil => simp
  | cons root next => simp [add_recursion_appends]

/-- C9: for every state, whose managed-parameter list `L` may be empty or not,
and every `(tfvn, scid, vcid, has_fecf, has_segmentation_hdr)`, when `calloc`
succeeds `Crypto_Config_Add_Gvcid_Managed_Parameter` returns
`CRYPTO_LIB_SUCCESS` and the list afterwards is `L` followed by one new record
with those five values, every record of `L` staying at its position; nothing
else of the state changes. -/
theorem add_managed_parameter_appends (tfvn scid vcid has_fecf has_segmentation_hdr : Nat)
    (s : LibState) :
    Crypto_Config_Add_Gvcid_Managed_Parameter true tfvn scid vcid has_fecf
        has_segmentation_hdr s =
      some (Status.CRYPTO_LIB_SUCCESS,
        { s with gvcid_managed_parameters := s.gvcid_managed_parameters ++
          [{ tfvn := tfvn, scid := scid, vcid := vcid, has_fecf := has_fecf,
             has_segmentation_hdr := has_segmentation_hdr }] }) ∧
    ∀ i, i < s.gvcid_managed_parameters.length →
      (s.gvcid_managed_parameters ++
          [({ tfvn := tfvn, scid := scid, vcid := vcid, has_fecf := has_fecf,
              has_segmentation_hdr := has_segmentation_hdr } : GvcidManagedParameters_t)])[i]? =
        s.gvcid_managed_parameters[i]? := by
  refine ⟨add_appends tfvn scid vcid has_fecf has_segmentation_hdr s, ?_⟩
  intro i hi
  exact List.getElem?_append_left hi

theorem run_add_calls_all_ok (calls : List AddCall) : ∀ s : LibState,
    (∀ c ∈ calls, c.calloc_ok = true) →
    run_add_calls calls s = some { s with gvcid_managed_parameters :=
      s.gvcid_managed_parameters ++ calls.map AddCall.record } := by
  induction calls with
  | nil => intro s _; simp [run_add_calls]
  | cons c rest ih =>
    intro s h
    have hc : c.calloc_ok = true := h c (List.mem_cons_self _ _)
    rw [run_add_calls, hc, add_appends]
    simp only
    rw [ih _ (fun d hd => h d (List.mem_cons_of_mem _ hd))]
    simp [AddCall.record]

theorem add_recursion_fails (tfvn scid vcid has_fecf has_segmentation_hdr : Nat)
    (next : List GvcidManagedParameters_t) : ∀ managed_parameter : GvcidManagedParameters_t,
    crypto_config_add_gvcid_managed_parameter_recursion false tfvn scid vcid has_fecf
        has_segmentation_hdr managed_parameter next = none := by
  induction next with
  | nil => intro mp; simp [crypto_config_add_gvcid_managed_parameter_recursion]
  | cons n rest ih =>
    intro mp
    rw [crypto_config_add_gvcid_managed_parameter_recursion, ih n]

theorem run_add_calls_sublist (calls : List AddCall) : ∀ s s' : LibState,
    run_add_calls calls s = some s' →
    ∃ added : List AddCall, added.Sublist calls ∧
      s'.gvcid_managed_parameters = s.gvcid_managed_parameters ++ added.map AddCall.record := by
  induction calls with
  | nil =>
    intro s s' h
    simp only [run_add_calls, Option.some.injEq] at h
    exact ⟨[], List.Sublist.refl _, by simp [h]⟩
  | cons c rest ih =>
    intro s s' h
    rw [run_add_calls] at h
    cases hc : c.calloc_ok with
    | true =>
      rw [hc, add_appends] at h
      obtain ⟨added, hsub, heq⟩ := ih _ _ h
      exact ⟨c :: added, hsub.cons₂ c, by simp [heq, AddCall.record]⟩
    | false =>
      rw [hc] at h
      cases hl : s.gvcid_managed_parameters with
      | nil =>
        simp only [Crypto_Config_Add_Gvcid_Managed_Parameter, hl] at h
        obtain ⟨added, hsub, heq⟩ := ih _ _ h
        exact ⟨added, hsub.cons c, by rw [heq, hl]⟩
      | cons root next =>
        simp [Crypto_Config_Add_Gvcid_Managed_Parameter, hl, add_recursion_fails] at h

/-- C8, as amended: starting from an empty table, after every sequence of
`Crypto_Config_Add_Gvcid_Managed_Parameter` calls that carry pairwise different
`(tfvn, scid, vcid)` triples, no two records of the table have the same
triple, whatever the allocations do; and when the allocations succeed the
sequence runs to its end and the table holds the records of the calls in call
order. -/
theorem managed_parameters_unique_of_distinct_calls (calls : List AddCall) (s : LibState)
    (hempty : s.gvcid_managed_parameters = [])
    (hdistinct : (calls.map (fun c => c.record.triple)).Nodup) :
    (∀ s', run_add_calls calls s = some s' →
      (s'.gvcid_managed_parameters.map GvcidManagedParameters_t.triple).Nodup) ∧
    ((∀ c ∈ calls, c.calloc_ok = true) →
      ∃ s', run_add_calls calls s = some s' ∧
        s'.gvcid_managed_parameters = calls.map AddCall.record) := by
  constructor
  · intro s' h
    obtain ⟨added, hsub, heq⟩ := run_add_calls_sublist calls s s' h
    rw [heq, hempty, List.nil_append, List.map_map]
    exact (hsub.map _).nodup hdistinct
  · intro hok
    exact ⟨_, run_add_calls_all_ok calls s hok, by simp [hempty]⟩

/-- Witness of `managed_parameters_unique_of_distinct_calls`: the two calls of
`Crypto_Init_Unit_Test`, for virtual channels 0 and 1 of spacecraft 3. -/
theorem managed_parameters_unique_of_distinct_calls_witness :
    (∀ s', run_add_calls [⟨true, 0, 0x0003, 0, 1, 1⟩, ⟨true, 0, 0x0003, 1, 1, 1⟩] unconfigured
        = some s' →
      (s'.gvcid_managed_parameters.map GvcidManagedParameters_t.triple).Nodup) ∧
    ((∀ c ∈ [(⟨true, 0, 0x0003, 0, 1, 1⟩ : AddCall), ⟨true, 0, 0x0003, 1, 1, 1⟩],
        c.calloc_ok = true) →
      ∃ s', run_add_calls [⟨true, 0, 0x0003, 0, 1, 1⟩, ⟨true, 0, 0x0003, 1, 1, 1⟩] unconfigured
          = some s' ∧
        s'.gvcid_managed_parameters =
          [⟨true, 0, 0x0003, 0, 1, 1⟩, ⟨true, 0, 0x0003, 1, 1, 1⟩].map AddCall.record) :=
  managed_parameters_unique_of_distinct_calls
    [⟨true, 0, 0x0003, 0, 1, 1⟩, ⟨true, 0, 0x0003, 1, 1, 1⟩] unconfigured rfl (by decide)

/-- C8, counterexample: from the empty table, two calls with the same
`(tfvn, scid, vcid) = (0, 3, 0)` both succeed and leave two records with that
triple. -/
theorem managed_parameters_duplicate :
    ∃ s', run_add_calls [⟨true, 0, 0x0003, 0, 1, 1⟩, ⟨true, 0, 0x0003, 0, 1, 1⟩] unconfigured
        = some s' ∧
      s'.gvcid_managed_parameters.map GvcidManagedParameters_t.triple = [(0, 3, 0), (0, 3, 0)] ∧
      ¬ (s'.gvcid_managed_parameters.map GvcidManagedParameters_t.triple).Nodup := by
  refine ⟨_, run_add_calls_all_ok _ unconfigured (by decide), ?_, ?_⟩ <;>
    simp [unconfigured, AddCall.record, GvcidManagedParameters_t.triple]

/-! ## The MariaDB backend: reading a security association -/

/-- C2, the code at the failing input: when the statement for `spi` succeeds
and its result set has no row, `sadb_get_sa_from_spi` never returns a not-found
status. No row has set `iv_byte_str`, `arc_byte_str` and `abm_byte_str`, which
the function hands to `sscanf` all the same: when one of them addresses nothing
readable the call does not return; when the stack happens to make all three
readable it returns `CRYPTO_LIB_SUCCESS` and hands back the block `malloc`
returned, with the `spi` that block happened to hold. -/
theorem sadb_get_sa_from_spi_no_row (narrow : SaField → Int → Nat) (env : Env)
    (u : Uninitialised) (spi : Nat) (s : LibState) (fields : List String)
    (hrows : env.mysql_exec (SQL_SADB_GET_SA_BY_SPI spi) =
      QueryOutcome.result_set { fields := fields, rows := [] }) :
    ((u.iv_byte_str = none ∨ u.arc_byte_str = none ∨ u.abm_byte_str = none) →
      sadb_get_sa_from_spi narrow env u spi s = none) ∧
    (∀ iv arc abm, u.iv_byte_str = some iv → u.arc_byte_str = some arc →
      u.abm_byte_str = some abm →
      ∃ sa, sadb_get_sa_from_spi narrow env u spi s =
          some (Status.CRYPTO_LIB_SUCCESS, some sa, s) ∧ sa.spi = u.sa.spi) ∧
    (∀ r, sadb_get_sa_from_spi narrow env u spi s = some r →
      r.1 = Status.CRYPTO_LIB_SUCCESS) := by
  refine ⟨?_, ?_, ?_⟩
  · intro h
    cases h1 : u.iv_byte_str <;> cases h2 : u.arc_byte_str <;> cases h3 : u.abm_byte_str <;>
      simp_all [sadb_get_sa_from_spi, parse_sa_from_mysql_query, parse_rows]
  · intro iv arc abm h1 h2 h3
    simp [sadb_get_sa_from_spi, parse_sa_from_mysql_query, hrows, parse_rows, h1, h2, h3]
  · intro r h
    cases h1 : u.iv_byte_str <;> cases h2 : u.arc_byte_str <;> cases h3 : u.abm_byte_str <;>
      simp [sadb_get_sa_from_spi, parse_sa_from_mysql_query, hrows, parse_rows, h1, h2, h3] at h
    rw [← h]

/-- Witness of `sadb_get_sa_from_spi_no_row`: `spi` 7 on a table without rows,
with pointers that address nothing readable (no return) and with pointers that
address empty strings (`CRYPTO_LIB_SUCCESS` and an SA of `spi` 0). -/
theorem sadb_get_sa_from_spi_no_row_witness :
    sadb_get_sa_from_spi sample_narrow (answering_env []) zero_uninitialised 7
        mariadb_configured = none ∧
    (∃ sa, sadb_get_sa_from_spi sample_narrow (answering_env []) readable_uninitialised 7
          mariadb_configured = some (Status.CRYPTO_LIB_SUCCESS, some sa, mariadb_configured) ∧
        sa.spi = 0) :=
  ⟨(sadb_get_sa_from_spi_no_row sample_narrow (answering_env []) zero_uninitialised 7
      mariadb_configured SA_SELECT_LIST rfl).1 (Or.inl rfl),
   (sadb_get_sa_from_spi_no_row sample_narrow (answering_env []) readable_uninitialised 7
      mariadb_configured SA_SELECT_LIST rfl).2.1 "" "" "" rfl rfl rfl⟩

theorem parse_field_field_names (narrow : SaField → Int → Nat) (name value : String)
    (l : ParseLocals) : (parse_field narrow name value l).field_names = l.field_names := by
  simp only [parse_field, apply_ite ParseLocals.field_names, ite_self]

theorem parse_field_arcw (narrow : SaField → Int → Nat) (name value : String)
    (l : ParseLocals) (h : name ≠ "arcw") :
    (parse_field narrow name value l).sa.arcw = l.sa.arcw := by
  simp only [parse_field, apply_ite ParseLocals.sa, apply_ite SecurityAssociation_t.arcw, h,
    if_false, ite_self]

set_option maxRecDepth 100000 in
theorem select_list_has_no_arcw : ∀ name ∈ "" :: SA_SELECT_LIST, name ≠ "arcw" := by
  decide

theorem select_list_getD_ne_arcw (i : Nat) : SA_SELECT_LIST.getD i "" ≠ "arcw" := by
  apply select_list_has_no_arcw
  rw [List.getD_eq_getElem?_getD]
  cases h : SA_SELECT_LIST[i]? with
  | none => simp
  | some x =>
    have := List.getElem?_mem h
    simp only [Option.getD_some]
    exact List.mem_cons_of_mem _ this

theorem parse_column_arcw (narrow : SaField → Int → Nat) (result : MysqlResult)
    (hf : result.fields = SA_SELECT_LIST) (row : List (Option String)) (i : Nat)
    (l : ParseLocals) (hl : i = 0 ∨ l.field_names = SA_SELECT_LIST) :
    (parse_column narrow result row i l).sa.arcw = l.sa.arcw ∧
    (parse_column narrow result row i l).field_names = SA_SELECT_LIST := by
  have hnames : (if i = 0 then { l with field_names := result.fields } else l).field_names =
      SA_SELECT_LIST := by
    rcases hl with h0 | h1
    · simp [h0, hf]
    · split_ifs
      · exact hf
      · exact h1
  have harcw : (if i = 0 then { l with field_names := result.fields } else l).sa.arcw =
      l.sa.arcw := by
    split_ifs <;> rfl
  unfold parse_column
  simp only
  cases row.getD i none with
  | none => exact ⟨harcw, hnames⟩
  | some value =>
    simp only
    rw [parse_field_field_names, parse_field_arcw, hnames]
    · exact ⟨harcw, rfl⟩
    · rw [hnames]; exact select_list_getD_ne_arcw i

theorem parse_columns_arcw (narrow : SaField → Int → Nat) (result : MysqlResult)
    (hf : result.fields = SA_SELECT_LIST) (row : List (Option String)) (count : Nat) :
    ∀ (i : Nat) (l : ParseLocals), (i = 0 ∨ l.field_names = SA_SELECT_LIST) →
    (parse_columns narrow result row count i l).sa.arcw = l.sa.arcw := by
  induction count with
  | zero => intro i l _; rfl
  | succ n ih =>
    intro i l hl
    obtain ⟨h1, h2⟩ := parse_column_arcw narrow result hf row i l hl
    rw [parse_columns, ih _ _ (Or.inr h2), h1]

theorem parse_rows_arcw (narrow : SaField → Int → Nat) (result : MysqlResult)
    (hf : result.fields = SA_SELECT_LIST) (rows : List (List (Option String))) :
    ∀ l : ParseLocals, (parse_rows narrow result rows l).sa.arcw = l.sa.arcw := by
  induction rows with
  | nil => intro l; rfl
  | cons row rest ih =>
    intro l
    rw [parse_rows, ih, parse_columns_arcw narrow result hf row _ 0 l (Or.inl rfl)]

theorem parse_field_iv (narrow : SaField → Int → Nat) (name value : String)
    (l : ParseLocals) :
    (parse_field narrow name value l).iv_byte_str =
      if name = "HEX(iv)" then some value else l.iv_byte_str := by
  by_cases h : name = "HEX(iv)"
  · subst h; simp [parse_field]
  · simp only [parse_field, apply_ite ParseLocals.iv_byte_str, h, if_false, ite_self]

theorem parse_field_arc (narrow : SaField → Int → Nat) (name value : String)
    (l : ParseLocals) :
    (parse_field narrow name value l).arc_byte_str =
      if name = "HEX(arc)" then some value else l.arc_byte_str := by
  by_cases h : name = "HEX(arc)"
  · subst h; simp [parse_field]
  · simp only [parse_field, apply_ite ParseLocals.arc_byte_str, h, if_false, ite_self]

theorem parse_field_abm (narrow : SaField → Int → Nat) (name value : String)
    (l : ParseLocals) :
    (parse_field narrow name value l).abm_byte_str =
      if name = "HEX(abm)" then some value else l.abm_byte_str := by
  by_cases h : name = "HEX(abm)"
  · subst h; simp [parse_field]
  · simp only [parse_field, apply_ite ParseLocals.abm_byte_str, h, if_false, ite_self]

theorem parse_column_sel (narrow : SaField → Int → Nat) (sel : ParseLocals → Option String)
    (name : String) (index : Nat) (name_at : SA_SELECT_LIST.getD index "" = name)
    (of_field : ∀ (n value : String) (l : ParseLocals),
      sel (parse_field narrow n value l) = if n = name then some value else sel l)
    (of_names : ∀ (l : ParseLocals) (names : List String),
      sel { l with field_names := names } = sel l)
    (result : MysqlResult) (hf : result.fields = SA_SELECT_LIST) (row : List (Option String))
    (i : Nat) (l : ParseLocals) (hl : i = 0 ∨ l.field_names = SA_SELECT_LIST)
    (h : (sel l).isSome = true ∨ (i = index ∧ (row.getD index none).isSome = true)) :
    (sel (parse_column narrow result row i l)).isSome = true := by
  have hnames : (if i = 0 then { l with field_names := result.fields } else l).field_names =
      SA_SELECT_LIST := by
    rcases hl with h0 | h1
    · simp [h0, hf]
    · split_ifs
      · exact hf
      · exact h1
  have hsel : sel (if i = 0 then { l with field_names := result.fields } else l) =
      sel l := by
    split_ifs
    · exact of_names l _
    · rfl
  unfold parse_column
  simp only
  cases hrow : row.getD i none with
  | none =>
    simp only
    rw [hsel]
    rcases h with h | ⟨hi, hsome⟩
    · exact h
    · rw [hi] at hrow; rw [hrow] at hsome; simp at hsome
  | some value =>
    simp only
    rw [of_field, hsel, hnames]
    split_ifs with hn
    · rfl
    · rcases h with h | ⟨hi, _⟩
      · exact h
      · exact absurd (hi ▸ name_at) hn

theorem parse_columns_sel (narrow : SaField → Int → Nat) (sel : ParseLocals → Option String)
    (name : String) (index : Nat) (name_at : SA_SELECT_LIST.getD index "" = name)
    (of_field : ∀ (n value : String) (l : ParseLocals),
      sel (parse_field narrow n value l) = if n = name then some value else sel l)
    (of_names : ∀ (l : ParseLocals) (names : List String),
      sel { l with field_names := names } = sel l)
    (result : MysqlResult) (hf : result.fields = SA_SELECT_LIST) (row : List (Option String))
    (count : Nat) : ∀ (i : Nat) (l : ParseLocals), (i = 0 ∨ l.field_names = SA_SELECT_LIST) →
    ((sel l).isSome = true ∨
      (i ≤ index ∧ index < i + count ∧ (row.getD index none).isSome = true)) →
    (sel (parse_columns narrow result row count i l)).isSome = true := by
  induction count with
  | zero =>
    intro i l _ h
    rcases h with h | ⟨h1, h2, _⟩
    · exact h
    · omega
  | succ n ih =>
    intro i l hl h
    have hnames := (parse_column_arcw narrow result hf row i l hl).2
    rw [parse_columns]
    apply ih _ _ (Or.inr hnames)
    rcases h with h | ⟨h1, h2, h3⟩
    · exact Or.inl (parse_column_sel narrow sel name index name_at of_field of_names result hf row i l hl (Or.inl h))
    · by_cases hi : i = index
      · exact Or.inl (parse_column_sel narrow sel name index name_at of_field of_names result hf row i l hl (Or.inr ⟨hi, h3⟩))
      · exact Or.inr ⟨by omega, by omega, h3⟩

theorem parse_rows_sel (narrow : SaField → Int → Nat) (sel : ParseLocals → Option String)
    (name : String) (index : Nat) (name_at : SA_SELECT_LIST.getD index "" = name)
    (of_field : ∀ (n value : String) (l : ParseLocals),
      sel (parse_field narrow n value l) = if n = name then some value else sel l)
    (of_names : ∀ (l : ParseLocals) (names : List String),
      sel { l with field_names := names } = sel l)
    (result : MysqlResult) (hf : result.fields = SA_SELECT_LIST)
    (index_lt : index < SA_SELECT_LIST.length)
    (rows : List (List (Option String))) : ∀ l : ParseLocals,
    ((sel l).isSome = true ∨ ∃ row ∈ rows, (row.getD index none).isSome = true) →
    (sel (parse_rows narrow result rows l)).isSome = true := by
  induction rows with
  | nil =>
    intro l h
    rcases h with h | ⟨row, hrow, _⟩
    · exact h
    · simp at hrow
  | cons row rest ih =>
    intro l h
    rw [parse_rows]
    apply ih
    rcases h with h | ⟨r, hr, hsome⟩
    · exact Or.inl (parse_columns_sel narrow sel name index name_at of_field of_names result hf row _ 0 l (Or.inl rfl) (Or.inl h))
    · rcases List.mem_cons.mp hr with heq | hmem
      · subst heq
        refine Or.inl (parse_columns_sel narrow sel name index name_at of_field of_names result hf r _ 0 l (Or.inl rfl)
          (Or.inr ⟨Nat.zero_le _, ?_, hsome⟩))
        rw [hf]
        simpa using index_lt
      · exact Or.inr ⟨r, hmem, hsome⟩

/-- C3, the code on every result of the SA select statement: the column the
statement selects is named `HEX(arcw)`, the parser looks for `arcw`, so
whatever the rows hold, whenever the function returns it returns
`CRYPTO_LIB_SUCCESS` and the `arcw` of the security association handed back is
the one the block `malloc` returned happened to hold. And it does return as
soon as each of `iv_byte_str`, `arc_byte_str` and `abm_byte_str` is readable,
be it because a row has a value in its column (`HEX(iv)`, `HEX(arc)`,
`HEX(abm)`, numbers 18, 24 and 22 of the select list) or because the stack made
it so. -/
theorem parse_sa_leaves_arcw (narrow : SaField → Int → Nat) (env : Env) (u : Uninitialised)
    (query : String) (s : LibState) (result : MysqlResult)
    (hres : env.mysql_exec query = QueryOutcome.result_set result)
    (hf : result.fields = SA_SELECT_LIST) :
    (∀ r, parse_sa_from_mysql_query narrow env u query s = some r →
      r.1 = Status.CRYPTO_LIB_SUCCESS ∧
      r.2.1.map SecurityAssociation_t.arcw = some u.sa.arcw) ∧
    ((u.iv_byte_str.isSome = true ∨ ∃ row ∈ result.rows, (row.getD 18 none).isSome = true) →
     (u.arc_byte_str.isSome = true ∨ ∃ row ∈ result.rows, (row.getD 24 none).isSome = true) →
     (u.abm_byte_str.isSome = true ∨ ∃ row ∈ result.rows, (row.getD 22 none).isSome = true) →
      ∃ sa, parse_sa_from_mysql_query narrow env u query s =
          some (Status.CRYPTO_LIB_SUCCESS, some sa, s) ∧ sa.arcw = u.sa.arcw) := by
  have harcw := parse_rows_arcw narrow result hf result.rows
    { sa := u.sa, field_names := [], iv_byte_str := u.iv_byte_str,
      arc_byte_str := u.arc_byte_str, abm_byte_str := u.abm_byte_str }
  simp only at harcw
  refine ⟨?_, ?_⟩
  · intro r h
    simp only [parse_sa_from_mysql_query, hres] at h
    split at h
    · simp at h
    · split at h
      · simp at h
      · split at h
        · simp at h
        · simp only [Option.some.injEq] at h
          rw [← h]
          exact ⟨rfl, by simp [harcw]⟩
  · intro h1 h2 h3
    have e1 := parse_rows_sel narrow ParseLocals.iv_byte_str "HEX(iv)" 18 (by decide)
      (parse_field_iv narrow) (fun _ _ => rfl) result hf (by decide) result.rows
      { sa := u.sa, field_names := [], iv_byte_str := u.iv_byte_str,
        arc_byte_str := u.arc_byte_str, abm_byte_str := u.abm_byte_str } h1
    have e2 := parse_rows_sel narrow ParseLocals.arc_byte_str "HEX(arc)" 24 (by decide)
      (parse_field_arc narrow) (fun _ _ => rfl) result hf (by decide) result.rows
      { sa := u.sa, field_names := [], iv_byte_str := u.iv_byte_str,
        arc_byte_str := u.arc_byte_str, abm_byte_str := u.abm_byte_str } h2
    have e3 := parse_rows_sel narrow ParseLocals.abm_byte_str "HEX(abm)" 22 (by decide)
      (parse_field_abm narrow) (fun _ _ => rfl) result hf (by decide) result.rows
      { sa := u.sa, field_names := [], iv_byte_str := u.iv_byte_str,
        arc_byte_str := u.arc_byte_str, abm_byte_str := u.abm_byte_str } h3
    obtain ⟨iv, hiv⟩ := Option.isSome_iff_exists.mp e1
    obtain ⟨arc, harc⟩ := Option.isSome_iff_exists.mp e2
    obtain ⟨abm, habm⟩ := Option.isSome_iff_exists.mp e3
    simp only [parse_sa_from_mysql_query, hres, hiv, harc, habm]
    exact ⟨_, rfl, harcw⟩

/-- Witness of `parse_sa_leaves_arcw`: one row whose `HEX(arcw)` column says 5
and whose three hex columns have a value, read into a block whose `arcw` was 0,
on a stack whose pointers address nothing readable. -/
theorem parse_sa_leaves_arcw_witness :
    ∃ sa, parse_sa_from_mysql_query sample_narrow (answering_env [sample_row])
          zero_uninitialised (SQL_SADB_GET_SA_BY_SPI 7) mariadb_configured =
        some (Status.CRYPTO_LIB_SUCCESS, some sa, mariadb_configured) ∧ sa.arcw = 0 :=
  (parse_sa_leaves_arcw sample_narrow (answering_env [sample_row]) zero_uninitialised
    (SQL_SADB_GET_SA_BY_SPI 7) mariadb_configured
    { fields := SA_SELECT_LIST, rows := [sample_row] } rfl rfl).2
    (Or.inr ⟨sample_row, by simp, by decide⟩) (Or.inr ⟨sample_row, by simp, by decide⟩)
    (Or.inr ⟨sample_row, by simp, by decide⟩)

set_option maxRecDepth 1000000 in
/-- The other scalar columns of the same row do reach their members: `spi` 7,
`sa_state` 3 and `arcw_len` 1 are copied. -/
theorem parse_sa_copies_sample_row :
    (parse_sa_from_mysql_query sample_narrow (answering_env [sample_row]) zero_uninitialised
        (SQL_SADB_GET_SA_BY_SPI 7) mariadb_configured).map
        (fun r => r.2.1.map (fun sa => (sa.spi, sa.sa_state, sa.arcw_len))) =
      some (some (7, 3, 1)) := by
  decide

/-! ## The checks of `Crypto_Init`, in their order -/

/-- C11: for every state in which `crypto_config` is null, `Crypto_Init`
returns `CRYPTO_CONFIGURATION_NOT_COMPLETE` and leaves the state as it is,
whatever the managed parameters, the MariaDB configuration, the macros and the
collaborators are. -/
theorem Crypto_Init_without_config (m : Macros) (env : Env) (s : LibState)
    (hcfg : s.crypto_config = none) :
    Crypto_Init m env s = some (Status.CRYPTO_CONFIGURATION_NOT_COMPLETE, s) := by
  simp [Crypto_Init, hcfg]

/-- Witness of `Crypto_Init_without_config`: the state in which nothing is configured. -/
theorem Crypto_Init_without_config_witness :
    Crypto_Init sample_macros unreachable_env unconfigured =
      some (Status.CRYPTO_CONFIGURATION_NOT_COMPLETE, unconfigured) :=
  Crypto_Init_without_config sample_macros unreachable_env unconfigured rfl

/-- C12: for every state with a configuration and no managed parameter,
`Crypto_Init` returns `CRYPTO_MANAGED_PARAM_CONFIGURATION_NOT_COMPLETE` and
leaves the state as it is, whatever the configured `sadb_type` is. -/
theorem Crypto_Init_without_managed_parameters (m : Macros) (env : Env) (s : LibState)
    (cfg : CryptoConfig_t) (hcfg : s.crypto_config = some cfg)
    (hmp : s.gvcid_managed_parameters = []) :
    Crypto_Init m env s =
      some (Status.CRYPTO_MANAGED_PARAM_CONFIGURATION_NOT_COMPLETE, s) := by
  simp [Crypto_Init, hcfg, hmp]

/-- Witness of `Crypto_Init_without_managed_parameters`: the MariaDB set-up
with its managed parameters taken away. -/
theorem Crypto_Init_without_managed_parameters_witness :
    Crypto_Init sample_macros unreachable_env
        { mariadb_configured with gvcid_managed_parameters := [] } =
      some (Status.CRYPTO_MANAGED_PARAM_CONFIGURATION_NOT_COMPLETE,
        { mariadb_configured with gvcid_managed_parameters := [] }) :=
  Crypto_Init_without_managed_parameters sample_macros unreachable_env
    { mariadb_configured with gvcid_managed_parameters := [] } _ rfl rfl

/-- C13: for every state with a configuration and managed parameters, if the
configured `sadb_type` is neither `SADB_TYPE_INMEMORY` nor `SADB_TYPE_MARIADB`
then `Crypto_Init` returns `SADB_INVALID_SADB_TYPE` and leaves the state as it
is. -/
theorem Crypto_Init_invalid_sadb_type (m : Macros) (env : Env) (s : LibState)
    (cfg : CryptoConfig_t) (hcfg : s.crypto_config = some cfg)
    (hmp : s.gvcid_managed_parameters ≠ [])
    (hmem : cfg.sadb_type ≠ m.SADB_TYPE_INMEMORY)
    (hdb : cfg.sadb_type ≠ m.SADB_TYPE_MARIADB) :
    Crypto_Init m env s = some (Status.SADB_INVALID_SADB_TYPE, s) := by
  cases hl : s.gvcid_managed_parameters with
  | nil => exact absurd hl hmp
  | cons r rest => simp [Crypto_Init, hcfg, hl, hmem, hdb]

/-- Witness of `Crypto_Init_invalid_sadb_type`: the MariaDB set-up with
`sadb_type` 2, where the two known types are 0 and 1. -/
theorem Crypto_Init_invalid_sadb_type_witness :
    Crypto_Init sample_macros unreachable_env unknown_type_configured =
      some (Status.SADB_INVALID_SADB_TYPE, unknown_type_configured) :=
  Crypto_Init_invalid_sadb_type sample_macros unreachable_env unknown_type_configured _ rfl
    (by simp [unknown_type_configured, mariadb_configured]) (by decide) (by decide)

/-- C14: for every state in which the configuration has
`sadb_type = SADB_TYPE_MARIADB`, at least one managed parameter has been added
and the MariaDB configuration has been set, `Crypto_Init` returns
`CRYPTO_LIB_SUCCESS`, whether or not the server can be reached. -/
theorem Crypto_Init_mariadb_success (m : Macros) (env : Env) (s : LibState)
    (cfg : CryptoConfig_t) (dbcfg : SadbMariaDBConfig_t)
    (hcfg : s.crypto_config = some cfg)
    (htype : cfg.sadb_type = m.SADB_TYPE_MARIADB)
    (hne : m.SADB_TYPE_MARIADB ≠ m.SADB_TYPE_INMEMORY)
    (hmp : s.gvcid_managed_parameters ≠ [])
    (hdb : s.sadb_mariadb_config = some dbcfg) :
    (Crypto_Init m env s).map Prod.fst = some Status.CRYPTO_LIB_SUCCESS := by
  obtain ⟨cc, db, mp, cur, rt, con, ek, tm, clcw, rep, ls, blk, lc, crc⟩ := s
  simp only at hcfg hmp hdb
  subst hcfg hdb
  cases mp with
  | nil => exact absurd rfl hmp
  | cons r rest =>
    cases hconn : env.mysql_real_connect dbcfg <;>
      simp [Crypto_Init, htype, hne, Crypto_Init_backend, SadbRoutine.sadb_init, sadb_init,
        hconn, finish_with_error, SadbRoutine.sadb_config, sadb_config]

/-- Witness of `Crypto_Init_mariadb_success`: the set-up of the connection
test, with a server that cannot be reached. -/
theorem Crypto_Init_mariadb_success_witness :
    (Crypto_Init sample_macros unreachable_env mariadb_configured).map Prod.fst =
      some Status.CRYPTO_LIB_SUCCESS :=
  Crypto_Init_mariadb_success sample_macros unreachable_env mariadb_configured _ _ rfl rfl
    (by decide) (by simp [mariadb_configured]) rfl

/-! ## The MariaDB backend: saving, failing closed, the operational SA -/

set_option maxRecDepth 100000 in
theorem nibble_char_upper (a : Nat) (h : a < 16) : nibble_char a = upper_hex_digit a := by
  interval_cases a <;> decide

set_option maxRecDepth 100000 in
theorem byte_nibble_div_mod : ∀ x < 256,
    (x >>> 4) &&& 0x0F = x / 16 ∧ x &&& 0x0F = x % 16 := by
  decide

theorem byte_array_loop_upper (bytes : Nat → Nat) (count : Nat) : ∀ i,
    byte_array_loop bytes i count =
      upper_hex_chars ((List.range count).map (fun k => bytes (i + k))) := by
  induction count with
  | zero => intro i; rfl
  | succ n ih =>
    intro i
    have hx : bytes i % 256 < 256 := Nat.mod_lt _ (by norm_num)
    obtain ⟨h1, h2⟩ := byte_nibble_div_mod _ hx
    rw [byte_array_loop, ih, List.range_succ_eq_map, List.map_cons, List.map_map,
      upper_hex_chars, h1, h2,
      nibble_char_upper _ (by omega), nibble_char_upper _ (by omega)]
    have hf : ((fun k => bytes (i + k)) ∘ Nat.succ) = fun k => bytes (i + 1 + k) := by
      funext k
      simp only [Function.comp, Nat.succ_eq_add_one]
      congr 1
      omega
    rw [hf]
    rfl

theorem convert_byte_array_upper (b : Nat → Nat) (n : Nat) :
    convert_byte_array_to_hexstring (some b) n = some (upper_hex (first_bytes b n)) := by
  rw [convert_byte_array_some, byte_array_loop_upper]
  simp [upper_hex, first_bytes]

theorem upper_hex_length (bytes : List Nat) : (upper_hex bytes).length = 2 * bytes.length := by
  induction bytes with
  | nil => rfl
  | cons b rest ih =>
    simp only [upper_hex, String.length, upper_hex_chars, List.length_cons] at ih ⊢
    omega

theorem fmt_d_length (n : Nat) (h : n < 2 ^ 31) : (fmt_d n).length ≤ 10 := by
  have : n < 10 ^ 10 := by
    have : (2 : Nat) ^ 31 < 10 ^ 10 := by norm_num
    omega
  exact Nat.repr_length n 10 (by norm_num) this

theorem update_text_flat (iv_bytes arc_bytes : List Nat) (spi tfvn scid vcid mapid : Nat) :
    SQL_SADB_UPDATE_IV_ARC_BY_SPI (upper_hex iv_bytes) (upper_hex arc_bytes) spi tfvn scid vcid
        mapid = update_iv_arc_statement iv_bytes arc_bytes spi tfvn scid vcid mapid := by
  have h1 : "UPDATE security_associations" ++ " SET iv=X'" =
      "UPDATE security_associations SET iv=X'" := by decide
  have h2 : "'" ++ " WHERE spi='" = "' WHERE spi='" := by decide
  unfold SQL_SADB_UPDATE_IV_ARC_BY_SPI update_iv_arc_statement fmt_d
  rw [h1, String.append_assoc _ "'" " WHERE spi='", h2]

theorem update_text_length (a b : String) (spi tfvn scid vcid mapid : Nat) :
    (SQL_SADB_UPDATE_IV_ARC_BY_SPI a b spi tfvn scid vcid mapid).length =
      110 + a.length + b.length + (fmt_d spi).length + (fmt_d tfvn).length +
        (fmt_d scid).length + (fmt_d vcid).length + (fmt_d mapid).length := by
  simp only [SQL_SADB_UPDATE_IV_ARC_BY_SPI, String.length_append]
  have e1 : "UPDATE security_associations".length = 28 := by decide
  have e2 : " SET iv=X'".length = 10 := by decide
  have e3 : "', arc=X'".length = 9 := by decide
  have e4 : "'".length = 1 := by decide
  have e5 : " WHERE spi='".length = 12 := by decide
  have e6 : "' AND tfvn='".length = 12 := by decide
  have e7 : "' AND scid='".length = 12 := by decide
  have e8 : "' AND vcid='".length = 12 := by decide
  have e9 : "' AND mapid='".length = 13 := by decide
  rw [e1, e2, e3, e4, e5, e6, e7, e8, e9]
  omega

theorem snprintf_2048_fits (text : String) (h : text.length ≤ 2047) :
    snprintf_2048 text = text := by
  unfold snprintf_2048
  rw [List.take_of_length_le h]

theorem convert_byte_array_upper_of (p : Option (Nat → Nat)) (n : Nat)
    (h : p = none → n = 0) :
    convert_byte_array_to_hexstring p n =
      some (upper_hex (first_bytes (p.getD calloc_block) n)) := by
  cases p with
  | some b => exact convert_byte_array_upper b n
  | none =>
    rw [h rfl]
    rfl

/-- C15: for every security association whose `iv` and `arc` point to buffers
(or are null with a length of 0), whose `shivf_len` and `shsnf_len` are at most
255 and whose `spi`, `tfvn`, `scid`, `vcid` and `mapid` are `int` values that
are not negative, the statement `sadb_save_sa` sends is
`UPDATE security_associations SET iv=X'..', arc=X'..' WHERE spi='..' AND tfvn='..' AND scid='..' AND vcid='..' AND mapid='..'`
with the upper-case hex of the first `shivf_len` bytes of `sa.iv`, the
upper-case hex of the first `shsnf_len` bytes of `sa.arc` and the five values
of the SA; the result of `sadb_save_sa` depends on the server through that
statement alone. -/
theorem sadb_save_sa_statement (env : Env) (sa : SecurityAssociation_t) (s : LibState)
    (hiv : sa.iv = none → sa.shivf_len = 0) (harc : sa.arc = none → sa.shsnf_len = 0)
    (hivlen : sa.shivf_len ≤ 255) (harclen : sa.shsnf_len ≤ 255)
    (hspi : sa.spi < 2 ^ 31) (htfvn : sa.gvcid_tc_blk.tfvn < 2 ^ 31)
    (hscid : sa.gvcid_tc_blk.scid < 2 ^ 31) (hvcid : sa.gvcid_tc_blk.vcid < 2 ^ 31)
    (hmapid : sa.gvcid_tc_blk.mapid < 2 ^ 31) :
    update_sa_query sa =
      some (update_iv_arc_statement (first_bytes (sa.iv.getD calloc_block) sa.shivf_len)
        (first_bytes (sa.arc.getD calloc_block) sa.shsnf_len)
        sa.spi sa.gvcid_tc_blk.tfvn sa.gvcid_tc_blk.scid sa.gvcid_tc_blk.vcid
        sa.gvcid_tc_blk.mapid) ∧
    sadb_save_sa env (some sa) s =
      some (match env.mysql_exec (update_iv_arc_statement
          (first_bytes (sa.iv.getD calloc_block) sa.shivf_len)
          (first_bytes (sa.arc.getD calloc_block) sa.shsnf_len) sa.spi sa.gvcid_tc_blk.tfvn
          sa.gvcid_tc_blk.scid sa.gvcid_tc_blk.vcid sa.gvcid_tc_blk.mapid) with
        | QueryOutcome.query_error =>
          (Status.SADB_QUERY_FAILED, { s with con := MysqlHandle.closed })
        | _ => (Status.CRYPTO_LIB_SUCCESS, s)) := by
  have hq : update_sa_query sa =
      some (update_iv_arc_statement (first_bytes (sa.iv.getD calloc_block) sa.shivf_len)
        (first_bytes (sa.arc.getD calloc_block) sa.shsnf_len) sa.spi sa.gvcid_tc_blk.tfvn
        sa.gvcid_tc_blk.scid sa.gvcid_tc_blk.vcid sa.gvcid_tc_blk.mapid) := by
    unfold update_sa_query
    rw [convert_byte_array_upper_of _ _ hiv, convert_byte_array_upper_of _ _ harc]
    simp only
    rw [snprintf_2048_fits, update_text_flat]
    rw [update_text_length, upper_hex_length, upper_hex_length]
    have l1 := fmt_d_length _ hspi
    have l2 := fmt_d_length _ htfvn
    have l3 := fmt_d_length _ hscid
    have l4 := fmt_d_length _ hvcid
    have l5 := fmt_d_length _ hmapid
    simp only [first_bytes, List.length_map, List.length_range]
    omega
  refine ⟨hq, ?_⟩
  simp only [sadb_save_sa, hq, finish_with_error]
  cases env.mysql_exec (update_iv_arc_statement
      (first_bytes (sa.iv.getD calloc_block) sa.shivf_len)
      (first_bytes (sa.arc.getD calloc_block) sa.shsnf_len) sa.spi sa.gvcid_tc_blk.tfvn
      sa.gvcid_tc_blk.scid sa.gvcid_tc_blk.vcid sa.gvcid_tc_blk.mapid) <;> rfl

set_option maxRecDepth 100000 in
/-- Witness of `sadb_save_sa_statement`: the SA with `spi` 7, an IV of twelve
bytes and a sequence number of two, on a server that answers. -/
theorem sadb_save_sa_statement_witness :
    update_sa_query sample_sa =
      some (update_iv_arc_statement (first_bytes (fun i => i) 12) (first_bytes (fun i => i + 1) 2)
        7 0 3 1 0) ∧
    sadb_save_sa (answering_env []) (some sample_sa) mariadb_configured =
      some (match (answering_env []).mysql_exec (update_iv_arc_statement
          (first_bytes (fun i => i) 12) (first_bytes (fun i => i + 1) 2) 7 0 3 1 0) with
        | QueryOutcome.query_error =>
          (Status.SADB_QUERY_FAILED, { mariadb_configured with con := MysqlHandle.closed })
        | _ => (Status.CRYPTO_LIB_SUCCESS, mariadb_configured)) :=
  sadb_save_sa_statement (answering_env []) sample_sa mariadb_configured
    (by simp [sample_sa]) (by simp [sample_sa]) (by decide) (by decide) (by decide) (by decide)
    (by decide) (by decide) (by decide)

set_option maxRecDepth 100000 in
/-- The statement of the same SA, character by character. -/
theorem sample_sa_statement_text :
    update_sa_query sample_sa = some
      "UPDATE security_associations SET iv=X'000102030405060708090A0B', arc=X'0102' WHERE spi='7' AND tfvn='0' AND scid='3' AND vcid='1' AND mapid='0'" := by
  decide

/-- C16: when the server reports a query error for the statement of the call,
`sadb_get_sa_from_spi` and `sadb_get_operational_sa_from_gvcid` return
`SADB_QUERY_FAILED` and store nothing through the output parameter, and
`sadb_save_sa` returns `SADB_QUERY_FAILED`; each closes the connection, and
none returns `CRYPTO_LIB_SUCCESS`. -/
theorem sadb_fails_closed (m : Macros) (narrow : SaField → Int → Nat) (env : Env)
    (u : Uninitialised) (s : LibState) :
    (∀ spi, env.mysql_exec (SQL_SADB_GET_SA_BY_SPI spi) = QueryOutcome.query_error →
      sadb_get_sa_from_spi narrow env u spi s =
        some (Status.SADB_QUERY_FAILED, none, { s with con := MysqlHandle.closed })) ∧
    (∀ tfvn scid vcid mapid,
      env.mysql_exec (SQL_SADB_GET_SA_BY_GVCID tfvn scid vcid mapid m.SA_OPERATIONAL) =
        QueryOutcome.query_error →
      sadb_get_operational_sa_from_gvcid m narrow env u tfvn scid vcid mapid s =
        some (Status.SADB_QUERY_FAILED, none, { s with con := MysqlHandle.closed })) ∧
    (∀ sa query, update_sa_query sa = some query →
      env.mysql_exec query = QueryOutcome.query_error →
      sadb_save_sa env (some sa) s =
        some (Status.SADB_QUERY_FAILED, { s with con := MysqlHandle.closed })) ∧
    Status.SADB_QUERY_FAILED ≠ Status.CRYPTO_LIB_SUCCESS := by
  refine ⟨?_, ?_, ?_, by decide⟩
  · intro spi h
    simp [sadb_get_sa_from_spi, parse_sa_from_mysql_query, h, finish_with_error]
  · intro tfvn scid vcid mapid h
    simp [sadb_get_operational_sa_from_gvcid, parse_sa_from_mysql_query, h, finish_with_error]
  · intro sa query hq h
    simp [sadb_save_sa, hq, h, finish_with_error]

set_option maxRecDepth 100000 in
/-- Witness of `sadb_fails_closed`: a server on which every statement fails. -/
theorem sadb_fails_closed_witness :
    sadb_get_sa_from_spi sample_narrow unreachable_env zero_uninitialised 7 mariadb_configured =
      some (Status.SADB_QUERY_FAILED, none,
        { mariadb_configured with con := MysqlHandle.closed }) ∧
    sadb_get_operational_sa_from_gvcid sample_macros sample_narrow unreachable_env
        zero_uninitialised 0 3 1 0 mariadb_configured =
      some (Status.SADB_QUERY_FAILED, none,
        { mariadb_configured with con := MysqlHandle.closed }) ∧
    sadb_save_sa unreachable_env (some sample_sa) mariadb_configured =
      some (Status.SADB_QUERY_FAILED, { mariadb_configured with con := MysqlHandle.closed }) :=
  ⟨(sadb_fails_closed sample_macros sample_narrow unreachable_env zero_uninitialised
      mariadb_configured).1 7 rfl,
   (sadb_fails_closed sample_macros sample_narrow unreachable_env zero_uninitialised
      mariadb_configured).2.1 0 3 1 0 rfl,
   (sadb_fails_closed sample_macros sample_narrow unreachable_env zero_uninitialised
      mariadb_configured).2.2.1 sample_sa _ sample_sa_statement_text rfl⟩

/-- C17, the code at the failing input: when the statement for
`(tfvn, scid, vcid, mapid)` and `SA_OPERATIONAL` succeeds and its result set
has no row, `sadb_get_operational_sa_from_gvcid` never returns a not-found
status. No row has set `iv_byte_str`, `arc_byte_str` and `abm_byte_str`, which
the function hands to `sscanf` all the same: when one of them addresses nothing
readable the call does not return; when the stack happens to make all three
readable it returns `CRYPTO_LIB_SUCCESS` and hands back the block `malloc`
returned, with the `sa_state`, `tfvn`, `scid`, `vcid` and `mapid` that block
happened to hold. -/
theorem sadb_get_operational_no_row (m : Macros) (narrow : SaField → Int → Nat) (env : Env)
    (u : Uninitialised) (tfvn scid vcid mapid : Nat) (s : LibState) (fields : List String)
    (hrows : env.mysql_exec (SQL_SADB_GET_SA_BY_GVCID tfvn scid vcid mapid m.SA_OPERATIONAL) =
      QueryOutcome.result_set { fields := fields, rows := [] }) :
    ((u.iv_byte_str = none ∨ u.arc_byte_str = none ∨ u.abm_byte_str = none) →
      sadb_get_operational_sa_from_gvcid m narrow env u tfvn scid vcid mapid s = none) ∧
    (∀ iv arc abm, u.iv_byte_str = some iv → u.arc_byte_str = some arc →
      u.abm_byte_str = some abm →
      ∃ sa, sadb_get_operational_sa_from_gvcid m narrow env u tfvn scid vcid mapid s =
          some (Status.CRYPTO_LIB_SUCCESS, some sa, s) ∧
        sa.sa_state = u.sa.sa_state ∧ sa.gvcid_tc_blk = u.sa.gvcid_tc_blk) ∧
    (∀ r, sadb_get_operational_sa_from_gvcid m narrow env u tfvn scid vcid mapid s = some r →
      r.1 = Status.CRYPTO_LIB_SUCCESS) := by
  refine ⟨?_, ?_, ?_⟩
  · intro h
    cases h1 : u.iv_byte_str <;> cases h2 : u.arc_byte_str <;> cases h3 : u.abm_byte_str <;>
      simp_all [sadb_get_operational_sa_from_gvcid, parse_sa_from_mysql_query, parse_rows]
  · intro iv arc abm h1 h2 h3
    simp [sadb_get_operational_sa_from_gvcid, parse_sa_from_mysql_query, hrows, parse_rows,
      h1, h2, h3]
  · intro r h
    cases h1 : u.iv_byte_str <;> cases h2 : u.arc_byte_str <;> cases h3 : u.abm_byte_str <;>
      simp [sadb_get_operational_sa_from_gvcid, parse_sa_from_mysql_query, hrows, parse_rows,
        h1, h2, h3] at h
    rw [← h]

/-- Witness of `sadb_get_operational_no_row`: the channel `(0, 3, 1, 0)` on a
table without rows, `SA_OPERATIONAL` being 3: with pointers that address nothing
readable the call does not return; with pointers that address empty strings the
SA handed back has state 0 and the channel `(0, 0, 0, 0)`. -/
theorem sadb_get_operational_no_row_witness :
    sadb_get_operational_sa_from_gvcid sample_macros sample_narrow (answering_env [])
        zero_uninitialised 0 3 1 0 mariadb_configured = none ∧
    (∃ sa, sadb_get_operational_sa_from_gvcid sample_macros sample_narrow (answering_env [])
          readable_uninitialised 0 3 1 0 mariadb_configured =
          some (Status.CRYPTO_LIB_SUCCESS, some sa, mariadb_configured) ∧
        sa.sa_state = 0 ∧ sa.gvcid_tc_blk = { tfvn := 0, scid := 0, vcid := 0, mapid := 0 }) :=
  ⟨(sadb_get_operational_no_row sample_macros sample_narrow (answering_env [])
      zero_uninitialised 0 3 1 0 mariadb_configured SA_SELECT_LIST rfl).1 (Or.inl rfl),
   (sadb_get_operational_no_row sample_macros sample_narrow (answering_env [])
      readable_uninitialised 0 3 1 0 mariadb_configured SA_SELECT_LIST rfl).2.1 "" "" ""
      rfl rfl rfl⟩

/-! ## The key ring of `Crypto_Local_Config` -/

theorem write_key_value_get (bytes : List Nat) : ∀ (j0 : Nat) (value : Nat → Nat) (j : Nat),
    write_key_value bytes j0 value j =
      if j0 ≤ j then (bytes[j - j0]?).getD (value j) else value j := by
  induction bytes with
  | nil => intro j0 value j; simp [write_key_value]
  | cons b rest ih =>
    intro j0 value j
    rw [write_key_value, ih]
    by_cases h1 : j0 + 1 ≤ j
    · have hne : j ≠ j0 := by omega
      have hidx : j - j0 = (j - (j0 + 1)) + 1 := by omega
      rw [if_pos h1, if_pos (by omega), store_other _ _ _ _ hne, hidx, List.getElem?_cons_succ]
    · rw [if_neg h1]
      by_cases h2 : j = j0
      · subst h2; simp [store_same]
      · rw [store_other _ _ _ _ h2, if_neg (by omega)]

theorem apply_value_get (ring : Nat → crypto_key_t) (w : KeyWrite) (k j : Nat) :
    ((KeyWrite.apply ring w) k).value j = (w.byte_at k j).getD ((ring k).value j) := by
  cases w with
  | value k' bytes =>
    simp only [KeyWrite.apply, KeyWrite.byte_at]
    by_cases h : k' = k
    · subst h
      rw [store_same, if_pos rfl]
      simp only
      rw [write_key_value_get]
      simp
    · have h' : k ≠ k' := fun e => h e.symm
      rw [store_other _ _ _ _ h', if_neg h]
      rfl
  | key_state k' st =>
    simp only [KeyWrite.apply, KeyWrite.byte_at]
    by_cases h : k = k'
    · subst h; rw [store_same]; rfl
    · rw [store_other _ _ _ _ h]; rfl

theorem apply_state_get (ring : Nat → crypto_key_t) (w : KeyWrite) (k : Nat) :
    ((KeyWrite.apply ring w) k).key_state = (w.state_at k).getD (ring k).key_state := by
  cases w with
  | value k' bytes =>
    simp only [KeyWrite.apply, KeyWrite.state_at]
    by_cases h : k = k'
    · subst h; rw [store_same]; rfl
    · rw [store_other _ _ _ _ h]; rfl
  | key_state k' st =>
    simp only [KeyWrite.apply, KeyWrite.state_at]
    by_cases h : k' = k
    · subst h; rw [store_same, if_pos rfl]; rfl
    · have h' : k ≠ k' := fun e => h e.symm
      rw [store_other _ _ _ _ h', if_neg h]
      rfl

theorem foldl_value_get (ws : List KeyWrite) (k j : Nat) : ∀ ring : Nat → crypto_key_t,
    ((ws.foldl KeyWrite.apply ring) k).value j =
      (last_key_byte k j ws).getD ((ring k).value j) := by
  induction ws with
  | nil => intro ring; rfl
  | cons w rest ih =>
    intro ring
    rw [List.foldl_cons, ih, last_key_byte]
    cases last_key_byte k j rest with
    | some b => rfl
    | none => exact apply_value_get ring w k j

theorem foldl_state_get (ws : List KeyWrite) (k : Nat) : ∀ ring : Nat → crypto_key_t,
    ((ws.foldl KeyWrite.apply ring) k).key_state =
      (last_key_state k ws).getD (ring k).key_state := by
  induction ws with
  | nil => intro ring; rfl
  | cons w rest ih =>
    intro ring
    rw [List.foldl_cons, ih, last_key_state]
    cases last_key_state k rest with
    | some st => rfl
    | none => exact apply_state_get ring w k

theorem key_bytes_written (ws : List KeyWrite) (k : Nat) (ring : Nat → crypto_key_t)
    (h : (List.range 32).all (fun j => (last_key_byte k j ws).isSome) = true) :
    key_bytes (ws.foldl KeyWrite.apply ring) k = written_key_bytes ws k := by
  unfold key_bytes first_bytes written_key_bytes
  apply List.map_congr_left
  intro j hj
  rw [foldl_value_get]
  have hs := List.all_eq_true.mp h j hj
  cases hb : last_key_byte k j ws with
  | none => rw [hb] at hs; simp at hs
  | some b => rfl

theorem key_written_as_sound (ws : List KeyWrite) (k : Nat) (hex : String) (st : KeyState)
    (ring : Nat → crypto_key_t) (h : key_written_as ws k hex st = true) :
    (upper_hex (key_bytes (ws.foldl KeyWrite.apply ring) k),
      (key_bytes (ws.foldl KeyWrite.apply ring) k).all (fun b => decide (b < 256)),
      ((ws.foldl KeyWrite.apply ring) k).key_state) = (hex, true, st) := by
  simp only [key_written_as, Bool.and_eq_true, decide_eq_true_eq] at h
  obtain ⟨⟨⟨h1, h2⟩, h3⟩, h4⟩ := h
  rw [key_bytes_written ws k ring h1, foldl_state_get, h4, h3, h2]
  rfl

theorem Crypto_Local_Config_ek_ring (m : Macros) (s : LibState) :
    (Crypto_Local_Config m s).ek_ring = key_ring_writes.foldl KeyWrite.apply s.ek_ring := by
  rfl

theorem documented_keys_sound (ws : List KeyWrite) (ring : Nat → crypto_key_t)
    (docs : List (Nat × String × KeyState))
    (h : docs.all (fun d => key_written_as ws d.1 d.2.1 d.2.2) = true) :
    docs.map (fun d =>
        (upper_hex (key_bytes (ws.foldl KeyWrite.apply ring) d.1),
         (key_bytes (ws.foldl KeyWrite.apply ring) d.1).all (fun b => decide (b < 256)),
         ((ws.foldl KeyWrite.apply ring) d.1).key_state)) =
      docs.map (fun d => (d.2.1, true, d.2.2)) := by
  apply List.map_congr_left
  intro d hd
  exact key_written_as_sound ws d.1 d.2.1 d.2.2 ring (List.all_eq_true.mp h d hd)

set_option maxRecDepth 1000000 in
theorem documented_keys_checked :
    documented_keys.all (fun d => key_written_as key_ring_writes d.1 d.2.1 d.2.2) = true := by
  decide

set_option maxRecDepth 1000000 in
theorem key_130_checked :
    (List.range 32).all (fun j => (last_key_byte 130 j key_ring_writes).isSome) = true ∧
    written_key_bytes key_ring_writes 130 =
      [0xFE, 0xDC, 0xBA, 0x98, 0x76, 0x54, 0x32, 0x10, 0xFE, 0xDC, 0xBA, 0x98, 0x76, 0x54, 0x32,
       0x10, 0xFE, 0xDC, 0xBA, 0x98, 0x76, 0x54, 0x32, 0x10, 0xFE, 0xDC, 0xBA, 0x98, 0x76, 0x54,
       0x32, 0x10] ∧
    last_key_state 130 key_ring_writes = some KeyState.KEY_ACTIVE := by
  decide

set_option maxRecDepth 1000000 in
theorem key_136_checked :
    (List.range 32).all (fun j => (last_key_byte 136 j key_ring_writes).isSome) = true ∧
    written_key_bytes key_ring_writes 136 =
      [0xff, 0x9f, 0x92, 0x84, 0xcf, 0x59, 0x9e, 0xac, 0x3b, 0x11, 0x99, 0x05, 0xa7, 0xd1, 0x88,
       0x51, 0xe7, 0xe3, 0x74, 0xcf, 0x63, 0xae, 0xa0, 0x43, 0x58, 0x58, 0x6b, 0x0f, 0x75, 0x76,
       0x70, 0xf9] ∧
    last_key_state 136 key_ring_writes = none ∧
    last_key_state 135 key_ring_writes = some KeyState.KEY_DEACTIVATED := by
  decide

/-- C18, the code on every prior state: `Crypto_Local_Config` never assigns
`ek_ring[136].key_state`, which keeps the state it had before the call; the
assignment that closes the block of key 136 goes to `ek_ring[135]`, which is
`KEY_DEACTIVATED` afterwards. From the state in which nothing is initialised,
key 136 stays `KEY_PREACTIVE`. -/
theorem Crypto_Local_Config_key_136_state (m : Macros) (s : LibState) :
    ((Crypto_Local_Config m s).ek_ring 136).key_state = (s.ek_ring 136).key_state ∧
    ((Crypto_Local_Config m s).ek_ring 135).key_state = KeyState.KEY_DEACTIVATED ∧
    ((Crypto_Local_Config m unconfigured).ek_ring 136).key_state = KeyState.KEY_PREACTIVE := by
  simp only [Crypto_Local_Config_ek_ring, foldl_state_get, key_136_checked.2.2.1,
    key_136_checked.2.2.2]
  exact ⟨rfl, rfl, rfl⟩

/-- C19: after `Crypto_Local_Config`, whatever the key ring held before, each
of the keys 0, 1, 2, 128, 129, 130, 131, 132, 133 and 134 holds the 32 bytes
(each below 256) whose upper-case hexadecimal text is the value of its comment,
and the state of its comment: `KEY_ACTIVE` for 0, 1, 2, 128, 129, 130, 131, 133,
`KEY_PREACTIVE` for 132, `KEY_DEACTIVATED` for 134; key 130 is the pattern
`FE DC BA 98 76 54 32 10` four times and is `KEY_ACTIVE`. -/
theorem Crypto_Local_Config_documented_keys (m : Macros) (s : LibState) :
    documented_keys.map (fun d =>
        (upper_hex (key_bytes (Crypto_Local_Config m s).ek_ring d.1),
         (key_bytes (Crypto_Local_Config m s).ek_ring d.1).all (fun b => decide (b < 256)),
         ((Crypto_Local_Config m s).ek_ring d.1).key_state)) =
      documented_keys.map (fun d => (d.2.1, true, d.2.2)) ∧
    key_bytes (Crypto_Local_Config m s).ek_ring 130 =
      [0xFE, 0xDC, 0xBA, 0x98, 0x76, 0x54, 0x32, 0x10, 0xFE, 0xDC, 0xBA, 0x98, 0x76, 0x54, 0x32,
       0x10, 0xFE, 0xDC, 0xBA, 0x98, 0x76, 0x54, 0x32, 0x10, 0xFE, 0xDC, 0xBA, 0x98, 0x76, 0x54,
       0x32, 0x10] ∧
    ((Crypto_Local_Config m s).ek_ring 130).key_state = KeyState.KEY_ACTIVE := by
  rw [Crypto_Local_Config_ek_ring]
  refine ⟨documented_keys_sound _ _ _ documented_keys_checked, ?_, ?_⟩
  · rw [key_bytes_written _ _ _ key_130_checked.1, key_130_checked.2.1]
  · rw [foldl_state_get, key_130_checked.2.2]
    rfl

set_option maxRecDepth 1000000 in
/-- C20, the code on every prior state: after `Crypto_Local_Config` the 32 bytes
of key 136 are `ff 9f 92 84 .. 70 f9`: the first byte is 0xff and the last is
0xf9, where the comment of the key has 0xef and 0xf8; the other thirty bytes are
those of the comment. -/
theorem Crypto_Local_Config_key_136_value (m : Macros) (s : LibState) :
    key_bytes (Crypto_Local_Config m s).ek_ring 136 =
      [0xff, 0x9f, 0x92, 0x84, 0xcf, 0x59, 0x9e, 0xac, 0x3b, 0x11, 0x99, 0x05, 0xa7, 0xd1, 0x88,
       0x51, 0xe7, 0xe3, 0x74, 0xcf, 0x63, 0xae, 0xa0, 0x43, 0x58, 0x58, 0x6b, 0x0f, 0x75, 0x76,
       0x70, 0xf9] ∧
    upper_hex (key_bytes (Crypto_Local_Config m s).ek_ring 136) =
      "FF9F9284CF599EAC3B119905A7D18851E7E374CF63AEA04358586B0F757670F9" ∧
    upper_hex (key_bytes (Crypto_Local_Config m s).ek_ring 136) ≠ documented_key_136 := by
  rw [Crypto_Local_Config_ek_ring, key_bytes_written _ _ _ key_136_checked.1,
    key_136_checked.2.1]
  decide

/-! ## Configuration calls -/

/-- C21, the code at the failing inputs: when `calloc` fails,
`Crypto_Config_Add_Gvcid_Managed_Parameter` on a non-empty list does not
return (the recursion dereferences the null `next` it has just assigned), and
`Crypto_Config_MariaDB` returns `CRYPTO_LIB_ERR_NULL_BUFFER` with
`sadb_mariadb_config` set to null, whatever configuration was there before.
Only on an empty list does the first function return
`CRYPTO_LIB_ERR_NULL_BUFFER` and leave the state as it was. -/
theorem config_calls_on_failed_calloc (tfvn scid vcid has_fecf has_segmentation_hdr : Nat)
    (mysql_username mysql_password mysql_hostname mysql_database : Option String)
    (mysql_port : Nat) (s : LibState) :
    (s.gvcid_managed_parameters ≠ [] →
      Crypto_Config_Add_Gvcid_Managed_Parameter false tfvn scid vcid has_fecf
        has_segmentation_hdr s = none) ∧
    (s.gvcid_managed_parameters = [] →
      Crypto_Config_Add_Gvcid_Managed_Parameter false tfvn scid vcid has_fecf
        has_segmentation_hdr s = some (Status.CRYPTO_LIB_ERR_NULL_BUFFER, s)) ∧
    Crypto_Config_MariaDB false mysql_username mysql_password mysql_hostname mysql_database
        mysql_port s =
      (Status.CRYPTO_LIB_ERR_NULL_BUFFER, { s with sadb_mariadb_config := none }) := by
  refine ⟨?_, ?_, ?_⟩
  · intro h
    cases hl : s.gvcid_managed_parameters with
    | nil => exact absurd hl h
    | cons root next =>
      simp [Crypto_Config_Add_Gvcid_Managed_Parameter, hl, add_recursion_fails]
  · intro h
    simp [Crypto_Config_Add_Gvcid_Managed_Parameter, h]
  · simp [Crypto_Config_MariaDB]

/-- Witness of `config_calls_on_failed_calloc`: the state of the MariaDB
set-up, which has two managed parameters and a MariaDB configuration, and the
state in which nothing is configured. -/
theorem config_calls_on_failed_calloc_witness :
    Crypto_Config_Add_Gvcid_Managed_Parameter false 0 3 2 1 1 mariadb_configured = none ∧
    Crypto_Config_Add_Gvcid_Managed_Parameter false 0 3 2 1 1 unconfigured =
      some (Status.CRYPTO_LIB_ERR_NULL_BUFFER, unconfigured) ∧
    Crypto_Config_MariaDB false (some "testuser2") none (some "localhost") none 3306
        mariadb_configured =
      (Status.CRYPTO_LIB_ERR_NULL_BUFFER,
        { mariadb_configured with sadb_mariadb_config := none }) ∧
    mariadb_configured.sadb_mariadb_config ≠ none :=
  ⟨(config_calls_on_failed_calloc 0 3 2 1 1 (some "testuser2") none (some "localhost") none 3306
      mariadb_configured).1 (by simp [mariadb_configured]),
   (config_calls_on_failed_calloc 0 3 2 1 1 (some "testuser2") none (some "localhost") none 3306
      unconfigured).2.1 rfl,
   (config_calls_on_failed_calloc 0 3 2 1 1 (some "testuser2") none (some "localhost") none 3306
      mariadb_configured).2.2,
   by simp [mariadb_configured]⟩

/-- C22, the code: `Crypto_Config_MariaDB` has five parameters, user name,
password, host name, database and port; when `calloc` succeeds it records these
five values in the MariaDB configuration, returns `CRYPTO_LIB_SUCCESS` and
changes nothing else. The configuration it fills has these five members and no
other: there is no parameter for a TLS mode or for the path of a client
certificate, client key, CA certificate or CA directory, and nothing of the
kind is stored. -/
theorem Crypto_Config_MariaDB_records (mysql_username mysql_password mysql_hostname
    mysql_database : Option String) (mysql_port : Nat) (s : LibState) :
    Crypto_Config_MariaDB true mysql_username mysql_password mysql_hostname mysql_database
        mysql_port s =
      (Status.CRYPTO_LIB_SUCCESS,
        { s with sadb_mariadb_config := some ({
            mysql_username := mysql_username, mysql_password := mysql_password,
            mysql_hostname := mysql_hostname, mysql_database := mysql_database,
            mysql_port := mysql_port } : SadbMariaDBConfig_t) }) := by
  simp [Crypto_Config_MariaDB]

/-- C23: for every nine argument values, when `calloc` succeeds
`Crypto_Config_CryptoLib` returns `CRYPTO_LIB_SUCCESS`, changes nothing but
`crypto_config`, and the new configuration holds each argument in the member of
the same name. -/
theorem Crypto_Config_CryptoLib_records (sadb_type crypto_create_fecf process_sdls_pdus
    has_pus_hdr ignore_sa_state ignore_anti_replay unique_sa_per_mapid crypto_check_fecf
    vcid_bitmask : Nat) (s : LibState) :
    ∃ config : CryptoConfig_t,
      Crypto_Config_CryptoLib true sadb_type crypto_create_fecf process_sdls_pdus has_pus_hdr
          ignore_sa_state ignore_anti_replay unique_sa_per_mapid crypto_check_fecf vcid_bitmask s =
        some (Status.CRYPTO_LIB_SUCCESS, { s with crypto_config := some config }) ∧
      config.sadb_type = sadb_type ∧
      config.crypto_create_fecf = crypto_create_fecf ∧
      config.process_sdls_pdus = process_sdls_pdus ∧
      config.has_pus_hdr = has_pus_hdr ∧
      config.ignore_sa_state = ignore_sa_state ∧
      config.ignore_anti_replay = ignore_anti_replay ∧
      config.unique_sa_per_mapid = unique_sa_per_mapid ∧
      config.crypto_check_fecf = crypto_check_fecf ∧
      config.vcid_bitmask = vcid_bitmask := by
  refine ⟨{ sadb_type := sadb_type, crypto_create_fecf := crypto_create_fecf,
            process_sdls_pdus := process_sdls_pdus, has_pus_hdr := has_pus_hdr,
            ignore_sa_state := ignore_sa_state, ignore_anti_replay := ignore_anti_replay,
            unique_sa_per_mapid := unique_sa_per_mapid, crypto_check_fecf := crypto_check_fecf,
            vcid_bitmask := vcid_bitmask }, ?_, rfl, rfl, rfl, rfl, rfl, rfl, rfl, rfl, rfl⟩
  simp [Crypto_Config_CryptoLib]

/-! ## SA management on the MariaDB backend -/

/-- C24, as amended: on the MariaDB backend `sadb_sa_start` returns
`CRYPTO_LIB_SUCCESS` and leaves the server's table and the globals as they
were, whatever the frame and the table are; the SA stays in the state it had. -/
theorem sadb_sa_start_changes_nothing {TC Store : Type} (tc_frame : TC) (store : Store)
    (s : LibState) :
    sadb_sa_start tc_frame store s = (Status.CRYPTO_LIB_SUCCESS, store, s) := by
  rfl

/-- C24, counterexample: with the SA of `spi` 1 in state 2 (Keyed) in the
table, `sadb_sa_start` returns `CRYPTO_LIB_SUCCESS` and the table still holds
state 2 for it, not `SA_OPERATIONAL` (3). -/
theorem sadb_sa_start_leaves_keyed :
    (sadb_sa_start () keyed_store mariadb_configured).1 = Status.CRYPTO_LIB_SUCCESS ∧
    stored_sa_state (sadb_sa_start () keyed_store mariadb_configured).2.1 1 = some 2 ∧
    stored_sa_state (sadb_sa_start () keyed_store mariadb_configured).2.1 1 ≠
      some sample_macros.SA_OPERATIONAL := by
  decide

/-! ## Failed initialisation -/

/-- C25: whenever `Crypto_Init` returns one of its four configuration errors,
the whole state is as it was before the call, and so are the key ring, the TM
frame, the CLCW, the frame security report, the log, both CRC tables and the
selected SA-store routine. The in-memory backend, which is not among the
sources, is taken not to return one of these four statuses from its
`sadb_config`. -/
theorem Crypto_Init_error_is_atomic (m : Macros) (env : Env) (s s' : LibState)
    (status : Status) (hret : Crypto_Init m env s = some (status, s'))
    (herr : is_configuration_error status)
    (hmem : ¬ is_configuration_error env.inmemory_sadb_config) :
    s' = s ∧ s'.ek_ring = s.ek_ring ∧ s'.tm_frame = s.tm_frame ∧ s'.clcw = s.clcw ∧
    s'.report = s.report ∧ s'.log_summary = s.log_summary ∧ s'.mc_log_blk = s.mc_log_blk ∧
    s'.log_count = s.log_count ∧ s'.crc = s.crc ∧ s'.sadb_routine = s.sadb_routine := by
  have key : s' = s := by
    unfold Crypto_Init at hret
    split at hret
    · simp only [Option.some.injEq, Prod.mk.injEq] at hret
      exact hret.2.symm
    · split at hret
      · simp only [Option.some.injEq, Prod.mk.injEq] at hret
        exact hret.2.symm
      · split at hret
        · exfalso
          unfold Crypto_Init_backend at hret
          simp only [SadbRoutine.sadb_init, SadbRoutine.sadb_config, Option.some.injEq,
            Prod.mk.injEq] at hret
          rw [← hret.1] at herr
          exact hmem herr
        · split at hret
          · split at hret
            · simp only [Option.some.injEq, Prod.mk.injEq] at hret
              exact hret.2.symm
            · exfalso
              unfold Crypto_Init_backend at hret
              simp only [SadbRoutine.sadb_config, sadb_config] at hret
              split at hret
              · simp at hret
              · simp only [Option.some.injEq, Prod.mk.injEq] at hret
                rw [← hret.1] at herr
                simp [is_configuration_error] at herr
          · simp only [Option.some.injEq, Prod.mk.injEq] at hret
            exact hret.2.symm
  subst key
  exact ⟨rfl, rfl, rfl, rfl, rfl, rfl, rfl, rfl, rfl, rfl⟩

theorem unknown_type_init :
    Crypto_Init sample_macros unreachable_env unknown_type_configured =
      some (Status.SADB_INVALID_SADB_TYPE, unknown_type_configured) := by
  simp [Crypto_Init, unknown_type_configured, mariadb_configured, sample_macros]

/-- Witness of `Crypto_Init_error_is_atomic`: the MariaDB set-up with an
unknown `sadb_type`, on which `Crypto_Init` returns `SADB_INVALID_SADB_TYPE`. -/
theorem Crypto_Init_error_is_atomic_witness :
    Crypto_Init sample_macros unreachable_env unknown_type_configured =
      some (Status.SADB_INVALID_SADB_TYPE, unknown_type_configured) ∧
    is_configuration_error Status.SADB_INVALID_SADB_TYPE ∧
    ¬ is_configuration_error unreachable_env.inmemory_sadb_config ∧
    unknown_type_configured.sadb_routine = unknown_type_configured.sadb_routine :=
  ⟨unknown_type_init, by simp [is_configuration_error],
   by simp [is_configuration_error, unreachable_env],
   (Crypto_Init_error_is_atomic sample_macros unreachable_env unknown_type_configured
      unknown_type_configured Status.SADB_INVALID_SADB_TYPE unknown_type_init
      (by simp [is_configuration_error])
      (by simp [is_configuration_error, unreachable_env])).2.2.2.2.2.2.2.2.2⟩

/-- C26: for every state with a configuration of type `SADB_TYPE_MARIADB` and
managed parameters but no MariaDB configuration, `Crypto_Init` returns
`CRYPTO_MARIADB_CONFIGURATION_NOT_COMPLETE` with the state untouched: the
routine is not selected and the connection handle, which `sadb_init` assigns
first of all, is as before. A call of the backend's `sadb_init` in that state
would dereference the null `sadb_mariadb_config` and not return. -/
theorem Crypto_Init_without_mariadb_config (m : Macros) (env : Env) (s : LibState)
    (cfg : CryptoConfig_t) (hcfg : s.crypto_config = some cfg)
    (htype : cfg.sadb_type = m.SADB_TYPE_MARIADB)
    (hne : m.SADB_TYPE_MARIADB ≠ m.SADB_TYPE_INMEMORY)
    (hmp : s.gvcid_managed_parameters ≠ [])
    (hdb : s.sadb_mariadb_config = none) :
    Crypto_Init m env s = some (Status.CRYPTO_MARIADB_CONFIGURATION_NOT_COMPLETE, s) ∧
    sadb_init env s = none ∧
    SadbRoutine.mariadb.sadb_init env { s with sadb_routine := some SadbRoutine.mariadb } =
      none := by
  cases hl : s.gvcid_managed_parameters with
  | nil => exact absurd hl hmp
  | cons r rest =>
    refine ⟨?_, ?_, ?_⟩
    · simp [Crypto_Init, hcfg, hl, htype, hne, hdb]
    · simp [sadb_init, hdb]
    · simp [SadbRoutine.sadb_init, sadb_init, hdb]

/-- Witness of `Crypto_Init_without_mariadb_config`: the MariaDB set-up
without its MariaDB configuration. -/
theorem Crypto_Init_without_mariadb_config_witness :
    Crypto_Init sample_macros unreachable_env mariadb_without_config =
      some (Status.CRYPTO_MARIADB_CONFIGURATION_NOT_COMPLETE, mariadb_without_config) ∧
    sadb_init unreachable_env mariadb_without_config = none ∧
    SadbRoutine.mariadb.sadb_init unreachable_env
        { mariadb_without_config with sadb_routine := some SadbRoutine.mariadb } = none :=
  Crypto_Init_without_mariadb_config sample_macros unreachable_env mariadb_without_config _ rfl
    rfl (by decide) (by simp [mariadb_without_config, mariadb_configured]) rfl

/-! ## Hex marshalling: lengths, characters and the 8-bit counter -/

set_option maxRecDepth 100000 in
theorem nibble_char_is_upper_hex (a : Nat) (h : a < 16) : is_upper_hex_char (nibble_char a) := by
  unfold is_upper_hex_char
  interval_cases a <;> decide

theorem byte_array_loop_chars (bytes : Nat → Nat) (count : Nat) : ∀ i,
    ∀ c ∈ byte_array_loop bytes i count, is_upper_hex_char c := by
  induction count with
  | zero => intro i c hc; simp [byte_array_loop] at hc
  | succ n ih =>
    intro i c hc
    have hhi : ((bytes i % 256) >>> 4) &&& 0x0F < 16 :=
      Nat.lt_of_le_of_lt Nat.and_le_right (by norm_num)
    have hlo : (bytes i % 256) &&& 0x0F < 16 :=
      Nat.lt_of_le_of_lt Nat.and_le_right (by norm_num)
    rw [byte_array_loop] at hc
    simp only [List.mem_cons] at hc
    rcases hc with h | h | h
    · rw [h]; exact nibble_char_is_upper_hex _ hhi
    · rw [h]; exact nibble_char_is_upper_hex _ hlo
    · exact ih (i + 1) c h

set_option maxRecDepth 100000 in
theorem xdigit_facts (c : Char) (h : (xdigit_value c).isSome = true) :
    isspace c = false ∧ c ≠ '+' ∧ c ≠ '-' ∧ c ≠ 'x' ∧ c ≠ 'X' := by
  refine ⟨?_, ?_, ?_, ?_, ?_⟩
  · cases hs : isspace c with
    | false => rfl
    | true =>
      exfalso
      simp only [isspace, Bool.or_eq_true, decide_eq_true_eq] at hs
      rcases hs with ((((hs | hs) | hs) | hs) | hs) | hs <;>
        (subst hs; revert h; decide)
  all_goals (intro hc; subst hc; revert h; decide)

theorem sscanf_02x_digits (c1 c2 : Char) (d1 d2 : Nat) (h1 : xdigit_value c1 = some d1)
    (h2 : xdigit_value c2 = some d2) (rest : List Char) :
    sscanf_02x (c1 :: c2 :: rest) = some (16 * d1 + d2, 2) := by
  obtain ⟨a1, a2, a3, -, -⟩ := xdigit_facts c1 (by rw [h1]; rfl)
  obtain ⟨-, -, -, b4, b5⟩ := xdigit_facts c2 (by rw [h2]; rfl)
  simp [sscanf_02x, List.takeWhile, List.dropWhile, a1, a2, a3, h1, h2, b4, b5]

theorem hexstring_loop_count (n : Nat) : ∀ (fuel : Nat) (data : List Char) (dest : Nat → Nat)
    (len : Nat), data.length = 2 * n → (∀ c ∈ data, (xdigit_value c).isSome = true) →
    n < fuel → len < 256 → (hexstring_loop fuel data dest len).2 = (len + n) % 256 := by
  induction n with
  | zero =>
    intro fuel data dest len hlen _ hfuel hl
    have hd : data = [] := List.length_eq_zero.mp (by omega)
    subst hd
    cases fuel with
    | zero => omega
    | succ m => simp [hexstring_loop, sscanf_02x_nil, Nat.mod_eq_of_lt hl]
  | succ n ih =>
    intro fuel data dest len hlen hdig hfuel hl
    cases fuel with
    | zero => omega
    | succ m =>
      match data, hlen, hdig with
      | [], hlen, _ => simp at hlen
      | [_], hlen, _ => simp at hlen; omega
      | c1 :: c2 :: rest, hlen, hdig =>
        obtain ⟨d1, hd1⟩ := Option.isSome_iff_exists.mp (hdig c1 (by simp))
        obtain ⟨d2, hd2⟩ := Option.isSome_iff_exists.mp (hdig c2 (by simp))
        rw [hexstring_loop, sscanf_02x_digits c1 c2 d1 d2 hd1 hd2]
        simp only [List.drop_succ_cons, List.drop_zero]
        rw [ih m rest _ _ (by simp only [List.length_cons] at hlen; omega)
          (fun c hc => hdig c (by simp [hc])) (by omega) (Nat.mod_lt _ (by norm_num))]
        omega

theorem write_bytes_append (bytes : Nat → Nat) (c1 c2 : Nat) : ∀ (i : Nat) (dest : Nat → Nat)
    (len : Nat), write_bytes bytes i (c1 + c2) dest len =
      write_bytes bytes (i + c1) c2 (write_bytes bytes i c1 dest len).1
        (write_bytes bytes i c1 dest len).2 := by
  induction c1 with
  | zero => intro i dest len; simp [write_bytes]
  | succ n ih =>
    intro i dest len
    have e : n + 1 + c2 = (n + c2) + 1 := by omega
    rw [e, write_bytes, write_bytes, ih]
    have e2 : i + 1 + n = i + (n + 1) := by omega
    rw [e2]

/-- C27: for every byte buffer `b` of length `n ≤ 255`,
`convert_byte_array_to_hexstring(b, n)` is a string of exactly `2n` characters,
all in `0 .. 9` or `A .. F` (the empty string for `n = 0`), on which
`convert_hexstring_to_byte_array` returns `n` and writes `b[0 .. n-1]` to the
destination indices `0 .. n-1`; for every string of `2n` hexadecimal digits,
also with `n ≥ 256`, the returned count is `n mod 256`; and the write index
starts again at 0: for a buffer of `256 + r` bytes, `r ≤ 256`, byte `256 + k`
of the buffer ends at destination index `k`. -/
theorem hex_marshalling_counts (b : Nat → Nat) (dest : Nat → Nat) :
    (∀ n, n ≤ 255 →
      ∃ hexstr, convert_byte_array_to_hexstring (some b) n = some hexstr ∧
        hexstr.length = 2 * n ∧
        (∀ c ∈ hexstr.data, is_upper_hex_char c) ∧
        (n = 0 → hexstr = "") ∧
        (convert_hexstring_to_byte_array hexstr dest).2 = n ∧
        (∀ k, k < n → (convert_hexstring_to_byte_array hexstr dest).1 k = b k % 256)) ∧
    (∀ (text : String) (n : Nat), text.length = 2 * n → is_hex_digit_string text →
      (convert_hexstring_to_byte_array text dest).2 = n % 256) ∧
    (∀ r, r ≤ 256 →
      ∃ hexstr, convert_byte_array_to_hexstring (some b) (256 + r) = some hexstr ∧
        (convert_hexstring_to_byte_array hexstr dest).2 = (256 + r) % 256 ∧
        (∀ k, k < r →
          (convert_hexstring_to_byte_array hexstr dest).1 k = b (256 + k) % 256)) := by
  refine ⟨?_, ?_, ?_⟩
  · intro n hn
    refine ⟨String.mk (byte_array_loop b 0 n), convert_byte_array_some b n, ?_, ?_, ?_, ?_, ?_⟩
    · simp [String.length, byte_array_loop_length]
    · exact byte_array_loop_chars b n 0
    · intro h0; subst h0; rfl
    · rw [convert_encoded, write_bytes_len _ _ _ _ _ (by norm_num)]
      simp; omega
    · intro k hk
      rw [convert_encoded, write_bytes_get _ _ _ _ _ (by omega), if_pos (by omega)]
      simp
  · intro text n hlen hdig
    unfold convert_hexstring_to_byte_array
    rw [hexstring_loop_count n _ _ _ _ hlen hdig (by rw [hlen]; omega) (by norm_num)]
    simp
  · intro r hr
    refine ⟨String.mk (byte_array_loop b 0 (256 + r)), convert_byte_array_some b _, ?_, ?_⟩
    · rw [convert_encoded, write_bytes_len _ _ _ _ _ (by norm_num)]
      simp
    · intro k hk
      rw [convert_encoded, write_bytes_append, write_bytes_len _ _ _ _ _ (by norm_num)]
      have e : (0 + 256) % 256 = 0 := by norm_num
      rw [e, write_bytes_get _ _ _ _ _ (by omega), if_pos (by omega)]
      simp

/-- Witness of `hex_marshalling_counts`: a buffer of three bytes, the text of
512 digits `0`, and a buffer of 257 bytes. -/
theorem hex_marshalling_counts_witness :
    (∃ hexstr, convert_byte_array_to_hexstring (some (fun i => 250 + i)) 3 = some hexstr ∧
        hexstr.length = 2 * 3 ∧
        (∀ c ∈ hexstr.data, is_upper_hex_char c) ∧
        (3 = 0 → hexstr = "") ∧
        (convert_hexstring_to_byte_array hexstr (fun _ => 7)).2 = 3 ∧
        (∀ k, k < 3 →
          (convert_hexstring_to_byte_array hexstr (fun _ => 7)).1 k = (250 + k) % 256)) ∧
    (convert_hexstring_to_byte_array (String.mk (List.replicate 512 '0')) (fun _ => 7)).2 =
      256 % 256 ∧
    (∃ hexstr, convert_byte_array_to_hexstring (some (fun i => 250 + i)) (256 + 1) = some hexstr ∧
        (convert_hexstring_to_byte_array hexstr (fun _ => 7)).2 = (256 + 1) % 256 ∧
        (∀ k, k < 1 →
          (convert_hexstring_to_byte_array hexstr (fun _ => 7)).1 k = (250 + (256 + k)) % 256)) :=
  ⟨(hex_marshalling_counts (fun i => 250 + i) (fun _ => 7)).1 3 (by decide),
   (hex_marshalling_counts (fun i => 250 + i) (fun _ => 7)).2.1
      (String.mk (List.replicate 512 '0')) 256
      (by show (List.replicate 512 '0').length = 2 * 256; rw [List.length_replicate])
      (by
        intro c hc
        have hc' : c = '0' := List.eq_of_mem_replicate hc
        subst hc'
        decide),
   (hex_marshalling_counts (fun i => 250 + i) (fun _ => 7)).2.2 1 (by decide)⟩

end CryptoLib
